import Mathlib

/-!
# Verification of the RATapi project graph (`RATapi/project.py`)

This file gives a shallow embedding of the self-validating configuration
graph defined in `RATapi/project.py` and proves/refutes the frozen claims
about it.  Pure Python functions become Lean functions, the pydantic
model-validator pipeline becomes an explicit `Except`-valued composition,
and the mutation wrapper becomes a function from the pre-state to the
post-state paired with the returned value or error.

The module `RATapi/models.py` and the `ClassList` container
(`RATapi/classlist.py`) are not part of the available source; entity
shapes, the bootstrap defaults they provide and the raw `ClassList`
operations are modelled from the specification and are marked
`Modelled from the spec:` in their doc comments.
-/

namespace RAT

/-- The `Calculations` enum of `RATapi.utils.enums`
(`non polarised` / `domains`). -/
inductive Calculations where
  | NonPolarised
  | Domains
  deriving DecidableEq, Repr

/-- The `LayerModels` enum (`custom layers` / `custom xy` / `standard layers`). -/
inductive LayerModels where
  | CustomLayers
  | CustomXY
  | StandardLayers
  deriving DecidableEq, Repr

/-- The `Geometries` enum (`air/substrate` / `substrate/liquid`). -/
inductive Geometries where
  | AirSubstrate
  | SubstrateLiquid
  deriving DecidableEq, Repr

/-- The `Priors` enum (`uniform` / `gaussian`). -/
inductive Priors where
  | Uniform
  | Gaussian
  deriving DecidableEq, Repr

/-- The `TypeOptions` enum (`constant` / `data` / `function`). -/
inductive TypeOptions where
  | Constant
  | Data
  | Function
  deriving DecidableEq, Repr

/-- The `Hydration` enum for a layer's `hydrate_with` field. -/
inductive Hydration where
  | BulkIn
  | BulkOut
  deriving DecidableEq, Repr

/-- Modelled from the spec: a parameter entity (`RATapi.models.Parameter`,
source file not available) — a named record with numeric prior data.
`sigma = none` stands for `np.inf`.  `RATapi.models.ProtectedParameter`
is a subclass tagging parameters that must never be removed; the subclass
membership test `isinstance(_, ProtectedParameter)` is embedded as the
marker field `protectedTag`. -/
structure Parameter where
  name : String
  min : ℚ := 0
  value : ℚ := 0
  max : ℚ := 0
  fit : Bool := false
  prior_type : Priors := .Uniform
  mu : ℚ := 0
  sigma : Option ℚ := none
  protectedTag : Bool := false
  deriving DecidableEq, Repr

/-- Modelled from the spec: a background entity (`RATapi.models.Background`):
its `type` selects which collection the reference fields `value_1` …
`value_5` must point into. -/
structure Background where
  name : String
  type : TypeOptions := .Constant
  value_1 : String := ""
  value_2 : String := ""
  value_3 : String := ""
  value_4 : String := ""
  value_5 : String := ""
  deriving DecidableEq, Repr

/-- Modelled from the spec: a resolution entity (`RATapi.models.Resolution`),
shaped exactly like a background. -/
structure Resolution where
  name : String
  type : TypeOptions := .Constant
  value_1 : String := ""
  value_2 : String := ""
  value_3 : String := ""
  value_4 : String := ""
  value_5 : String := ""
  deriving DecidableEq, Repr

/-- Modelled from the spec: a data entity (`RATapi.models.Data`). The numeric
payload is irrelevant to the graph invariants; it is carried as rationals. -/
structure DataModel where
  name : String
  data : List (List ℚ) := []
  data_range : List ℚ := []
  simulation_range : List ℚ := []
  deriving DecidableEq, Repr

/-- Modelled from the spec: a custom-file entity (`RATapi.models.CustomFile`). -/
structure CustomFile where
  name : String
  filename : String := ""
  function_name : String := ""
  language : String := ""
  path : String := ""
  deriving DecidableEq, Repr

/-- Modelled from the spec: a non-absorption layer (`RATapi.models.Layer`),
whose reference fields point at parameters. -/
structure Layer where
  name : String
  thickness : String := ""
  SLD : String := ""
  roughness : String := ""
  hydration : String := ""
  hydrate_with : Hydration := .BulkOut
  deriving DecidableEq, Repr

/-- Modelled from the spec: the absorption layer variant
(`RATapi.models.AbsorptionLayer`): the real SLD reference plus an
imaginary SLD reference that defaults to empty. -/
structure AbsorptionLayer where
  name : String
  thickness : String := ""
  SLD_real : String := ""
  SLD_imaginary : String := ""
  roughness : String := ""
  hydration : String := ""
  hydrate_with : Hydration := .BulkOut
  deriving DecidableEq, Repr

/-- An element of the `layers` collection: the collection holds one of two
variants depending on the absorption flag. -/
inductive LayerLike where
  | layer (l : Layer)
  | absorptionLayer (a : AbsorptionLayer)
  deriving DecidableEq, Repr

/-- Modelled from the spec: a domain contrast (`RATapi.models.DomainContrast`)
with its model reference list pointing at layers. -/
structure DomainContrast where
  name : String
  model : List String := []
  deriving DecidableEq, Repr

/-- Modelled from the spec: a contrast for non-domains calculations
(`RATapi.models.Contrast`). -/
structure Contrast where
  name : String
  data : String := ""
  background : String := ""
  bulk_in : String := ""
  bulk_out : String := ""
  scalefactor : String := ""
  resolution : String := ""
  resample : Bool := false
  model : List String := []
  deriving DecidableEq, Repr

/-- Modelled from the spec: the domain-aware contrast variant
(`RATapi.models.ContrastWithRatio`).  Per the spec, the added
`domain_ratio` reference field defaults to the name of the default
domain-ratio entity, `"Domain Ratio 1"`. -/
structure ContrastWithRatio where
  name : String
  data : String := ""
  background : String := ""
  bulk_in : String := ""
  bulk_out : String := ""
  scalefactor : String := ""
  resolution : String := ""
  resample : Bool := false
  domain_ratio : String := "Domain Ratio 1"
  model : List String := []
  deriving DecidableEq, Repr

/-- An element of the `contrasts` collection. -/
inductive ContrastLike where
  | contrast (c : Contrast)
  | withRatio (c : ContrastWithRatio)
  deriving DecidableEq, Repr

/-- The `_class_handle` of the `layers` ClassList
(`Layer` vs `AbsorptionLayer`). -/
inductive LayerHandle where
  | layerH
  | absorptionLayerH
  deriving DecidableEq, Repr

/-- The `_class_handle` of the `contrasts` ClassList
(`Contrast` vs `ContrastWithRatio`). -/
inductive ContrastHandle where
  | contrastH
  | withRatioH
  deriving DecidableEq, Repr

/-- Name of a `LayerLike` entity. -/
def LayerLike.nameOf : LayerLike → String
  | .layer l => l.name
  | .absorptionLayer a => a.name

/-- Name of a `ContrastLike` entity. -/
def ContrastLike.nameOf : ContrastLike → String
  | .contrast c => c.name
  | .withRatio c => c.name

/-- Model reference list of a `ContrastLike` entity. -/
def ContrastLike.modelOf : ContrastLike → List String
  | .contrast c => c.model
  | .withRatio c => c.model

/-- Replace the model reference list of a `ContrastLike` entity
(`contrast.model = ...` in `set_contrast_model_field`). -/
def ContrastLike.setModel : ContrastLike → List String → ContrastLike
  | .contrast c, m => .contrast { c with model := m }
  | .withRatio c, m => .withRatio { c with model := m }

/-! ## Field access by name

Python reads and writes entity fields dynamically (`getattr(model, field,
"")` / `setattr(model, field, value)`).  A `FieldAccess` bundle gives the
corresponding string-field table for one entity type; `get` returns `""`
for a field the entity does not carry, exactly like `getattr(_, _, "")`,
and `set` leaves the entity unchanged on a field it does not carry.
Only string-valued fields appear in `fieldNames`: enum-, bool-, list- and
numeric-valued Python attributes can never equal a (non-empty) entity
name nor be the target of a rename, so they are irrelevant to
`get_all_matches` filtered by the registered rename fields and to the
cross-reference checks. -/

/-- Dynamic string-field access for one entity type. -/
structure FieldAccess (E : Type) where
  fieldNames : E → List String
  get : E → String → String
  set : E → String → String → E

/-- `FieldAccess` for `Background`. -/
def backgroundFA : FieldAccess Background where
  fieldNames _ := ["name", "value_1", "value_2", "value_3", "value_4", "value_5"]
  get b f :=
    if f = "name" then b.name
    else if f = "value_1" then b.value_1
    else if f = "value_2" then b.value_2
    else if f = "value_3" then b.value_3
    else if f = "value_4" then b.value_4
    else if f = "value_5" then b.value_5
    else ""
  set b f v :=
    if f = "name" then { b with name := v }
    else if f = "value_1" then { b with value_1 := v }
    else if f = "value_2" then { b with value_2 := v }
    else if f = "value_3" then { b with value_3 := v }
    else if f = "value_4" then { b with value_4 := v }
    else if f = "value_5" then { b with value_5 := v }
    else b

/-- `FieldAccess` for `Resolution`. -/
def resolutionFA : FieldAccess Resolution where
  fieldNames _ := ["name", "value_1", "value_2", "value_3", "value_4", "value_5"]
  get r f :=
    if f = "name" then r.name
    else if f = "value_1" then r.value_1
    else if f = "value_2" then r.value_2
    else if f = "value_3" then r.value_3
    else if f = "value_4" then r.value_4
    else if f = "value_5" then r.value_5
    else ""
  set r f v :=
    if f = "name" then { r with name := v }
    else if f = "value_1" then { r with value_1 := v }
    else if f = "value_2" then { r with value_2 := v }
    else if f = "value_3" then { r with value_3 := v }
    else if f = "value_4" then { r with value_4 := v }
    else if f = "value_5" then { r with value_5 := v }
    else r

/-- `FieldAccess` for `LayerLike`: each variant exposes its own fields. -/
def layerFA : FieldAccess LayerLike where
  fieldNames
    | .layer _ => ["name", "thickness", "SLD", "roughness", "hydration"]
    | .absorptionLayer _ =>
        ["name", "thickness", "SLD_real", "SLD_imaginary", "roughness", "hydration"]
  get
    | .layer l, f =>
        if f = "name" then l.name
        else if f = "thickness" then l.thickness
        else if f = "SLD" then l.SLD
        else if f = "roughness" then l.roughness
        else if f = "hydration" then l.hydration
        else ""
    | .absorptionLayer a, f =>
        if f = "name" then a.name
        else if f = "thickness" then a.thickness
        else if f = "SLD_real" then a.SLD_real
        else if f = "SLD_imaginary" then a.SLD_imaginary
        else if f = "roughness" then a.roughness
        else if f = "hydration" then a.hydration
        else ""
  set
    | .layer l, f, v =>
        if f = "name" then .layer { l with name := v }
        else if f = "thickness" then .layer { l with thickness := v }
        else if f = "SLD" then .layer { l with SLD := v }
        else if f = "roughness" then .layer { l with roughness := v }
        else if f = "hydration" then .layer { l with hydration := v }
        else .layer l
    | .absorptionLayer a, f, v =>
        if f = "name" then .absorptionLayer { a with name := v }
        else if f = "thickness" then .absorptionLayer { a with thickness := v }
        else if f = "SLD_real" then .absorptionLayer { a with SLD_real := v }
        else if f = "SLD_imaginary" then .absorptionLayer { a with SLD_imaginary := v }
        else if f = "roughness" then .absorptionLayer { a with roughness := v }
        else if f = "hydration" then .absorptionLayer { a with hydration := v }
        else .absorptionLayer a

/-- `FieldAccess` for `ContrastLike`: the `domain_ratio` field exists only on
the domain-aware variant. -/
def contrastFA : FieldAccess ContrastLike where
  fieldNames
    | .contrast _ =>
        ["name", "data", "background", "bulk_in", "bulk_out", "scalefactor", "resolution"]
    | .withRatio _ =>
        ["name", "data", "background", "bulk_in", "bulk_out", "scalefactor", "resolution",
         "domain_ratio"]
  get
    | .contrast c, f =>
        if f = "name" then c.name
        else if f = "data" then c.data
        else if f = "background" then c.background
        else if f = "bulk_in" then c.bulk_in
        else if f = "bulk_out" then c.bulk_out
        else if f = "scalefactor" then c.scalefactor
        else if f = "resolution" then c.resolution
        else ""
    | .withRatio c, f =>
        if f = "name" then c.name
        else if f = "data" then c.data
        else if f = "background" then c.background
        else if f = "bulk_in" then c.bulk_in
        else if f = "bulk_out" then c.bulk_out
        else if f = "scalefactor" then c.scalefactor
        else if f = "resolution" then c.resolution
        else if f = "domain_ratio" then c.domain_ratio
        else ""
  set
    | .contrast c, f, v =>
        if f = "name" then .contrast { c with name := v }
        else if f = "data" then .contrast { c with data := v }
        else if f = "background" then .contrast { c with background := v }
        else if f = "bulk_in" then .contrast { c with bulk_in := v }
        else if f = "bulk_out" then .contrast { c with bulk_out := v }
        else if f = "scalefactor" then .contrast { c with scalefactor := v }
        else if f = "resolution" then .contrast { c with resolution := v }
        else .contrast c
    | .withRatio c, f, v =>
        if f = "name" then .withRatio { c with name := v }
        else if f = "data" then .withRatio { c with data := v }
        else if f = "background" then .withRatio { c with background := v }
        else if f = "bulk_in" then .withRatio { c with bulk_in := v }
        else if f = "bulk_out" then .withRatio { c with bulk_out := v }
        else if f = "scalefactor" then .withRatio { c with scalefactor := v }
        else if f = "resolution" then .withRatio { c with resolution := v }
        else if f = "domain_ratio" then .withRatio { c with domain_ratio := v }
        else .withRatio c

/-! ## Raw ClassList operations (spec-modelled) -/

/-- Modelled from the spec: `ClassList.get_all_matches(name)` returns every
`(index, field)` pair across the collection where some field's value
currently equals `name` (spec §4.1). -/
def get_all_matches {E : Type} (fa : FieldAccess E) : List E → String → List (Nat × String)
  | [], _ => []
  | e :: rest, nm =>
      ((fa.fieldNames e).filter (fun f => fa.get e f = nm)).map (fun f => ((0 : Nat), f))
        ++ (get_all_matches fa rest nm).map (fun p => (p.1 + 1, p.2))

/-- Python's `str.lower()` over the characters of a string (ASCII case
mapping, matching `Char.toLower`). -/
def pythonLower (s : String) : String :=
  ⟨s.data.map Char.toLower⟩

/-- Modelled from the spec: name lookup in a name-addressable `ClassList`
(`_get_item_from_name_field`); name comparison is case-normalized
(spec §3, invariant 1). -/
def classlist_lookup {E : Type} (nameOf : E → String) (data : List E) (nm : String) :
    Option E :=
  data.find? (fun e => pythonLower (nameOf e) = pythonLower nm)

/-- Errors surfacing from a mutation: the pipeline's `ValueError`s and the
raw `ClassList` errors, with their message payloads. -/
inductive PError where
  /-- Modelled from the spec: a raw `ClassList` operation addressed a name
  absent from the collection. -/
  | itemNotFound (nm : String)
  /-- `check_allowed_values` / `check_allowed_background_resolution_values`:
  `The value "{value}" in the "{field}" field of "{attribute}" must be
  defined in "{definedIn}".` -/
  | valueNotDefined (value field attr definedIn : String)
  /-- `'"Function" type backgrounds and resolutions are not yet supported.'` -/
  | functionTypeNotSupported
  /-- `check_contrast_model_length`: standard-layers domains contrast model
  without exactly two values. -/
  | modelNotTwoValues
  /-- `check_contrast_model_length`: custom-model contrast model with more
  than one value. -/
  | modelTooManyValues
  /-- `check_contrast_model_allowed_values`: model values not all defined in
  the allowed field. -/
  | modelValuesNotDefined (values : List String) (attr definedIn : String)
  /-- `check_protected_parameters`: `Can't delete the protected parameters:
  {removed}`. -/
  | protectedRemoved (removed : List String)
  deriving DecidableEq, Repr

instance exceptDecEq {ε α : Type} [DecidableEq ε] [DecidableEq α] :
    DecidableEq (Except ε α)
  | .error e, .error f =>
      if h : e = f then .isTrue (by rw [h]) else .isFalse (by simp [h])
  | .error _, .ok _ => .isFalse (by simp)
  | .ok _, .error _ => .isFalse (by simp)
  | .ok a, .ok b =>
      if h : a = b then .isTrue (by rw [h]) else .isFalse (by simp [h])

/-- Modelled from the spec: `ClassList.remove(name)` removes the entity
addressed by `name`, failing with a `ValueError` when no entity matches. -/
def classlist_remove {E : Type} (nameOf : E → String) (data : List E) (nm : String) :
    Except PError (List E × Unit) :=
  match classlist_lookup nameOf data nm with
  | some _ => .ok (data.eraseP (fun e => pythonLower (nameOf e) = pythonLower nm), ())
  | none => .error (.itemNotFound nm)

/-- Python's `str.title()` over the characters of a string: an alphabetic
character is upper-cased after a non-alphabetic character (or at the
start) and lower-cased otherwise. -/
def pythonTitleAux : Bool → List Char → List Char
  | _, [] => []
  | prevAlpha, c :: cs =>
      (if c.isAlpha then (if prevAlpha then c.toLower else c.toUpper) else c)
        :: pythonTitleAux c.isAlpha cs

/-- Python's `str.title()`. -/
def pythonTitle (s : String) : String :=
  ⟨pythonTitleAux false s.data⟩

/-! ## The project graph -/

/-- The `_all_names` cache: the name list of every collection recorded at the
end of the previous successful validation (`Project.get_all_names`). -/
structure AllNames where
  parameters : List String := []
  background_parameters : List String := []
  scalefactors : List String := []
  bulk_in : List String := []
  bulk_out : List String := []
  resolution_parameters : List String := []
  domain_ratios : List String := []
  backgrounds : List String := []
  resolutions : List String := []
  custom_files : List String := []
  data : List String := []
  layers : List String := []
  domain_contrasts : List String := []
  contrasts : List String := []
  deriving DecidableEq, Repr

/-- The `_protected_parameters` cache: for each of the seven
`parameter_class_lists`, the names of its `ProtectedParameter` entries at
the previous successful validation. -/
structure ProtectedNames where
  parameters : List String := []
  background_parameters : List String := []
  scalefactors : List String := []
  bulk_in : List String := []
  bulk_out : List String := []
  resolution_parameters : List String := []
  domain_ratios : List String := []
  deriving DecidableEq, Repr

/-- Modelled from the spec: the default bootstrap entities of the `Project`
class body (values copied from the `ClassList` field defaults in
`project.py`, which are themselves in the available source). -/
def substrateRoughnessDefault : Parameter :=
  { name := "Substrate Roughness", min := 1, value := 3, max := 5, fit := true,
    prior_type := .Uniform, mu := 0, sigma := none, protectedTag := true }

/-- The `bulk_in` bootstrap parameter `SLD Air`. -/
def sldAirDefault : Parameter :=
  { name := "SLD Air", min := 0, value := 0, max := 0, fit := false,
    prior_type := .Uniform, mu := 0, sigma := none }

/-- The `bulk_out` bootstrap parameter `SLD D2O`. -/
def sldD2ODefault : Parameter :=
  { name := "SLD D2O", min := (⟨31, 5000000, by decide, by decide⟩ : ℚ),
    value := (⟨127, 20000000, by decide, by decide⟩ : ℚ),
    max := (⟨127, 20000000, by decide, by decide⟩ : ℚ), fit := false,
    prior_type := .Uniform, mu := 0, sigma := none }

/-- The `scalefactors` bootstrap parameter `Scalefactor 1`. -/
def scalefactor1Default : Parameter :=
  { name := "Scalefactor 1", min := (⟨1, 50, by decide, by decide⟩ : ℚ),
    value := (⟨23, 100, by decide, by decide⟩ : ℚ),
    max := (⟨1, 4, by decide, by decide⟩ : ℚ), fit := false,
    prior_type := .Uniform, mu := 0, sigma := none }

/-- The `domain_ratios` bootstrap parameter `Domain Ratio 1`; also the entity
installed by the `set_calculation` validator when converting to domains. -/
def domainRatio1Default : Parameter :=
  { name := "Domain Ratio 1", min := (⟨2, 5, by decide, by decide⟩ : ℚ),
    value := (⟨1, 2, by decide, by decide⟩ : ℚ),
    max := (⟨3, 5, by decide, by decide⟩ : ℚ), fit := false,
    prior_type := .Uniform, mu := 0, sigma := none }

/-- The `background_parameters` bootstrap parameter `Background Param 1`. -/
def backgroundParam1Default : Parameter :=
  { name := "Background Param 1", min := (⟨1, 10000000, by decide, by decide⟩ : ℚ),
    value := (⟨1, 1000000, by decide, by decide⟩ : ℚ),
    max := (⟨1, 100000, by decide, by decide⟩ : ℚ), fit := false,
    prior_type := .Uniform, mu := 0, sigma := none }

/-- The `backgrounds` bootstrap entity `Background 1`. -/
def background1Default : Background :=
  { name := "Background 1", type := .Constant, value_1 := "Background Param 1" }

/-- The `resolution_parameters` bootstrap parameter `Resolution Param 1`. -/
def resolutionParam1Default : Parameter :=
  { name := "Resolution Param 1", min := (⟨1, 100, by decide, by decide⟩ : ℚ),
    value := (⟨3, 100, by decide, by decide⟩ : ℚ),
    max := (⟨1, 20, by decide, by decide⟩ : ℚ), fit := false,
    prior_type := .Uniform, mu := 0, sigma := none }

/-- The `resolutions` bootstrap entity `Resolution 1`. -/
def resolution1Default : Resolution :=
  { name := "Resolution 1", type := .Constant, value_1 := "Resolution Param 1" }

/-- The bootstrap data entity inserted by `model_post_init`:
`Data(name="Simulation", simulation_range=[0.005, 0.7])`. -/
def simulationDataDefault : DataModel :=
  { name := "Simulation",
    simulation_range := [(⟨1, 200, by decide, by decide⟩ : ℚ),
      (⟨7, 10, by decide, by decide⟩ : ℚ)] }

/-- The `Project` pydantic model: mode flags, the fourteen collections, the
two variant handles, and the three private caches (`_all_names`,
`_contrast_model_field`, `_protected_parameters`).  Field defaults follow
the class body of `project.py`; the caches and handles are initialised by
`model_post_init`. -/
structure Project where
  name : String := ""
  calculation : Calculations := .NonPolarised
  model : LayerModels := .StandardLayers
  geometry : Geometries := .AirSubstrate
  absorption : Bool := false
  parameters : List Parameter := []
  bulk_in : List Parameter := [sldAirDefault]
  bulk_out : List Parameter := [sldD2ODefault]
  scalefactors : List Parameter := [scalefactor1Default]
  domain_ratios : List Parameter := [domainRatio1Default]
  background_parameters : List Parameter := [backgroundParam1Default]
  backgrounds : List Background := [background1Default]
  resolution_parameters : List Parameter := [resolutionParam1Default]
  resolutions : List Resolution := [resolution1Default]
  custom_files : List CustomFile := []
  data : List DataModel := []
  layers : List LayerLike := []
  domain_contrasts : List DomainContrast := []
  contrasts : List ContrastLike := []
  layersHandle : LayerHandle := .layerH
  contrastsHandle : ContrastHandle := .contrastH
  all_names : AllNames := {}
  contrast_model_field : String := ""
  protected_parameters : ProtectedNames := {}
  deriving DecidableEq, Repr

namespace Project

/-- `Project.get_all_names`: the current name list of every collection. -/
def get_all_names (p : Project) : AllNames where
  parameters := p.parameters.map Parameter.name
  background_parameters := p.background_parameters.map Parameter.name
  scalefactors := p.scalefactors.map Parameter.name
  bulk_in := p.bulk_in.map Parameter.name
  bulk_out := p.bulk_out.map Parameter.name
  resolution_parameters := p.resolution_parameters.map Parameter.name
  domain_ratios := p.domain_ratios.map Parameter.name
  backgrounds := p.backgrounds.map Background.name
  resolutions := p.resolutions.map Resolution.name
  custom_files := p.custom_files.map CustomFile.name
  data := p.data.map DataModel.name
  layers := p.layers.map LayerLike.nameOf
  domain_contrasts := p.domain_contrasts.map DomainContrast.name
  contrasts := p.contrasts.map ContrastLike.nameOf

/-- The names of the `ProtectedParameter` entries of one parameter list. -/
def protectedNamesOf (l : List Parameter) : List String :=
  (l.filter (fun q => q.protectedTag)).map Parameter.name

/-- `Project.get_all_protected_parameters`: protected names per parameter
collection. -/
def get_all_protected_parameters (p : Project) : ProtectedNames where
  parameters := protectedNamesOf p.parameters
  background_parameters := protectedNamesOf p.background_parameters
  scalefactors := protectedNamesOf p.scalefactors
  bulk_in := protectedNamesOf p.bulk_in
  bulk_out := protectedNamesOf p.bulk_out
  resolution_parameters := protectedNamesOf p.resolution_parameters
  domain_ratios := protectedNamesOf p.domain_ratios

/-- `Project.get_contrast_model_field`: the collection naming the allowed
values of the contrasts' `model` field, as a function of the mode flags. -/
def get_contrast_model_field (p : Project) : String :=
  if p.model = .StandardLayers then
    if p.calculation = .Domains then "domain_contrasts" else "layers"
  else "custom_files"

/-- `getattr(self, field).get_names()` for the string-valued
`_contrast_model_field` cache. -/
def namesOfCollection (p : Project) (field : String) : List String :=
  if field = "domain_contrasts" then p.domain_contrasts.map DomainContrast.name
  else if field = "layers" then p.layers.map LayerLike.nameOf
  else if field = "custom_files" then p.custom_files.map CustomFile.name
  else []

end Project

/-! ## The validation pipeline

`Project.model_validate(self)` re-runs the model validators (pydantic
`mode="after"`), in definition order, over the whole graph.  Each
in-place mutation of `self` becomes a `Project → Project` function and
each checking validator an `Except`-valued function raising the first
violation it meets, exactly as the Python `for` loops do. -/

/-- `set_domain_ratios`: outside a domains calculation the `domain_ratios`
collection is forced empty. -/
def set_domain_ratios (p : Project) : Project :=
  if p.calculation ≠ .Domains then { p with domain_ratios := [] } else p

/-- `set_domain_contrasts`: outside a domains + standard-layers calculation
the `domain_contrasts` collection is forced empty. -/
def set_domain_contrasts (p : Project) : Project :=
  if ¬(p.calculation = .Domains ∧ p.model = .StandardLayers) then
    { p with domain_contrasts := [] }
  else p

/-- `set_layers`: outside a standard-layers model the `layers` collection is
forced empty. -/
def set_layers (p : Project) : Project :=
  if p.model ≠ .StandardLayers then { p with layers := [] } else p

/-- `ContrastWithRatio(**contrast.model_dump())`: every dumped field is
copied; for a plain contrast the absent `domain_ratio` takes its
spec-documented default, the default domain-ratio entity's name. -/
def toWithRatio : ContrastLike → ContrastWithRatio
  | .contrast c =>
      { name := c.name, data := c.data, background := c.background, bulk_in := c.bulk_in,
        bulk_out := c.bulk_out, scalefactor := c.scalefactor, resolution := c.resolution,
        resample := c.resample, model := c.model }
  | .withRatio c => c

/-- `del contrast_params["domain_ratio"]; Contrast(**contrast_params)`. -/
def toPlainContrast : ContrastLike → Contrast
  | .withRatio c =>
      { name := c.name, data := c.data, background := c.background, bulk_in := c.bulk_in,
        bulk_out := c.bulk_out, scalefactor := c.scalefactor, resolution := c.resolution,
        resample := c.resample, model := c.model }
  | .contrast c => c

/-- `set_calculation`: convert the contrasts to the variant prescribed by the
calculation flag when the collection's `_class_handle` disagrees; on the
way into domains, `domain_ratios` is replaced by the single default
domain-ratio entity. -/
def set_calculation (p : Project) : Project :=
  if p.calculation = .Domains ∧ p.contrastsHandle = .contrastH then
    { p with
      contrasts := p.contrasts.map (fun c => .withRatio (toWithRatio c)),
      domain_ratios := [domainRatio1Default],
      contrastsHandle := .withRatioH }
  else if p.calculation ≠ .Domains ∧ p.contrastsHandle = .withRatioH then
    { p with
      contrasts := p.contrasts.map (fun c => .contrast (toPlainContrast c)),
      contrastsHandle := .contrastH }
  else p

/-- `set_contrast_model_field`: when the mode flags change which collection
feeds the contrasts' `model` field, clear every contrast's model list and
refresh the cache. -/
def set_contrast_model_field (p : Project) : Project :=
  let model_field := p.get_contrast_model_field
  if model_field ≠ p.contrast_model_field then
    { p with
      contrasts := p.contrasts.map (fun c => c.setModel []),
      contrast_model_field := model_field }
  else p

/-- `check_contrast_model_length`: a non-empty contrast model must have
exactly two values under standard-layers + domains, and at most one value
when the layer model is not standard layers. -/
def check_contrast_model_length (p : Project) : Except PError Unit :=
  if p.model = .StandardLayers ∧ p.calculation = .Domains then
    match p.contrasts.findSome? (fun c =>
        if c.modelOf ≠ [] ∧ c.modelOf.length ≠ 2 then some PError.modelNotTwoValues
        else none) with
    | some e => .error e
    | none => .ok ()
  else if p.model ≠ .StandardLayers then
    match p.contrasts.findSome? (fun c =>
        if c.modelOf.length > 1 then some PError.modelTooManyValues else none) with
    | some e => .error e
    | none => .ok ()
  else .ok ()

/-- `AbsorptionLayer(**layer.model_dump())`: the dumped SLD reference feeds
the real-SLD field (spec: fields are mapped across, the added
imaginary-SLD reference defaults to empty). -/
def toAbsorptionLayer : LayerLike → AbsorptionLayer
  | .layer l =>
      { name := l.name, thickness := l.thickness, SLD_real := l.SLD,
        roughness := l.roughness, hydration := l.hydration, hydrate_with := l.hydrate_with }
  | .absorptionLayer a => a

/-- `del layer_params["SLD_imaginary"]; Layer(**layer_params)`. -/
def toPlainLayer : LayerLike → Layer
  | .absorptionLayer a =>
      { name := a.name, thickness := a.thickness, SLD := a.SLD_real,
        roughness := a.roughness, hydration := a.hydration, hydrate_with := a.hydrate_with }
  | .layer l => l

/-- `set_absorption`: convert the layers to the variant prescribed by the
absorption flag when the collection's `_class_handle` disagrees. -/
def set_absorption (p : Project) : Project :=
  if p.absorption = true ∧ p.layersHandle = .layerH then
    { p with
      layers := p.layers.map (fun l => .absorptionLayer (toAbsorptionLayer l)),
      layersHandle := .absorptionLayerH }
  else if p.absorption = false ∧ p.layersHandle = .absorptionLayerH then
    { p with
      layers := p.layers.map (fun l => .layer (toPlainLayer l)),
      layersHandle := .layerH }
  else p

/-- The loop body of `update_renamed_models` for one source collection: when
the recorded and current name lists of the source have equal length, each
positionally changed `(old, new)` pair rewrites, in order, every
registered reference field of the consumer collection currently equal to
`old`; when the lengths differ nothing happens. -/
def propagate_renames {E : Type} (fa : FieldAccess E) (fields : List String)
    (old_names new_names : List String) (consumer : List E) : List E :=
  if old_names.length = new_names.length then
    let name_diff := (old_names.zip new_names).filter (fun q => q.1 ≠ q.2)
    name_diff.foldl (fun cons q =>
        let all_matches := get_all_matches fa cons q.1
        all_matches.foldl (fun cons m =>
            if m.2 ∈ fields then List.modify (fun e => fa.set e m.2 q.2) m.1 cons
            else cons)
          cons)
      consumer
  else consumer

/-- The per-entity effect of one `(old, new)` rename pair of
`update_renamed_models`: every field of the entity currently equal to
`nm` and registered in `fields` is set to `v`.  (`propagate_renames` is
proved below to act as this function, mapped over the consumer list.) -/
def rewrite_fields {E : Type} (fa : FieldAccess E) (fields : List String)
    (nm v : String) (e : E) : E :=
  ((fa.fieldNames e).filter (fun f => fa.get e f = nm)).foldl
    (fun e' f => if f ∈ fields then fa.set e' f v else e') e

/-- The registered rename fields of `model_names_used_in` for the
`parameters → layers` entry. -/
def layersRenameFields : List String :=
  ["thickness", "SLD", "SLD_real", "SLD_imaginary", "roughness", "hydration"]

/-- The value fields of backgrounds and resolutions. -/
def valueFields : List String :=
  ["value_1", "value_2", "value_3", "value_4", "value_5"]

/-- `update_renamed_models`: for every source collection of
`model_names_used_in` (in its definition order), propagate positional
renames since the last successful validation into the registered fields
of its consumer collection, then refresh the `_all_names` cache. -/
def update_renamed_models (p : Project) : Project :=
  let bgs := propagate_renames backgroundFA valueFields p.all_names.background_parameters
    (p.background_parameters.map Parameter.name) p.backgrounds
  let q1 : Project := { p with backgrounds := bgs }
  let ress := propagate_renames resolutionFA valueFields q1.all_names.resolution_parameters
    (q1.resolution_parameters.map Parameter.name) q1.resolutions
  let q2 : Project := { q1 with resolutions := ress }
  let lays := propagate_renames layerFA layersRenameFields q2.all_names.parameters
    (q2.parameters.map Parameter.name) q2.layers
  let q3 : Project := { q2 with layers := lays }
  let cons1 := propagate_renames contrastFA ["data"] q3.all_names.data
    (q3.data.map DataModel.name) q3.contrasts
  let q4 : Project := { q3 with contrasts := cons1 }
  let cons2 := propagate_renames contrastFA ["background"] q4.all_names.backgrounds
    (q4.backgrounds.map Background.name) q4.contrasts
  let q5 : Project := { q4 with contrasts := cons2 }
  let cons3 := propagate_renames contrastFA ["bulk_in"] q5.all_names.bulk_in
    (q5.bulk_in.map Parameter.name) q5.contrasts
  let q6 : Project := { q5 with contrasts := cons3 }
  let cons4 := propagate_renames contrastFA ["bulk_out"] q6.all_names.bulk_out
    (q6.bulk_out.map Parameter.name) q6.contrasts
  let q7 : Project := { q6 with contrasts := cons4 }
  let cons5 := propagate_renames contrastFA ["scalefactor"] q7.all_names.scalefactors
    (q7.scalefactors.map Parameter.name) q7.contrasts
  let q8 : Project := { q7 with contrasts := cons5 }
  let cons6 := propagate_renames contrastFA ["domain_ratio"] q8.all_names.domain_ratios
    (q8.domain_ratios.map Parameter.name) q8.contrasts
  let q9 : Project := { q8 with contrasts := cons6 }
  let cons7 := propagate_renames contrastFA ["resolution"] q9.all_names.resolutions
    (q9.resolutions.map Resolution.name) q9.contrasts
  let q10 : Project := { q9 with contrasts := cons7 }
  { q10 with all_names := q10.get_all_names }

/-- `Project.check_allowed_values`: every checked field of every entity is
empty or holds a value from `allowed_values`; the first violation raises. -/
def check_allowed_values {E : Type} (fa : FieldAccess E) (attr : String)
    (class_list : List E) (field_list : List String) (allowed_values : List String)
    (definedIn : String) : Except PError Unit :=
  match class_list.findSome? (fun m =>
      field_list.findSome? (fun field =>
        let value := fa.get m field
        if value ≠ "" ∧ value ∉ allowed_values then
          some (PError.valueNotDefined value field attr definedIn)
        else none)) with
  | some e => .error e
  | none => .ok ()

/-- `Project.check_allowed_background_resolution_values`: the allowed value
set of the value fields depends on the entity's own `type`; any type other
than `constant` or `data` raises. -/
def check_allowed_background_resolution_values {E : Type} (fa : FieldAccess E)
    (typeOf : E → TypeOptions) (attr : String) (class_list : List E)
    (field_list : List String) (allowed_constants allowed_data : List String)
    (constDefinedIn dataDefinedIn : String) : Except PError Unit :=
  match class_list.findSome? (fun m =>
      match typeOf m with
      | .Constant => field_list.findSome? (fun field =>
          let value := fa.get m field
          if value ≠ "" ∧ value ∉ allowed_constants then
            some (PError.valueNotDefined value field attr constDefinedIn)
          else none)
      | .Data => field_list.findSome? (fun field =>
          let value := fa.get m field
          if value ≠ "" ∧ value ∉ allowed_data then
            some (PError.valueNotDefined value field attr dataDefinedIn)
          else none)
      | .Function => some PError.functionTypeNotSupported) with
  | some e => .error e
  | none => .ok ()

/-- `Project.check_contrast_model_allowed_values`: a non-empty model list must
draw all its values from the allowed collection. -/
def check_contrast_model_allowed_values {E : Type} (modelOf : E → List String)
    (contrast_attribute : String) (class_list : List E) (allowed_values : List String)
    (allowed_field : String) : Except PError Unit :=
  match class_list.findSome? (fun contrast =>
      let model_values := modelOf contrast
      if model_values ≠ [] ∧ ¬(∀ v ∈ model_values, v ∈ allowed_values) then
        some (PError.modelValuesNotDefined model_values contrast_attribute allowed_field)
      else none) with
  | some e => .error e
  | none => .ok ()

/-- `cross_check_model_values`: every reference field of the graph must point
at an existing entry of its declared target collection. -/
def cross_check_model_values (p : Project) : Except PError Unit := do
  check_allowed_background_resolution_values backgroundFA Background.type "backgrounds"
    p.backgrounds valueFields (p.background_parameters.map Parameter.name)
    (p.data.map DataModel.name) "background_parameters" "data"
  check_allowed_background_resolution_values resolutionFA Resolution.type "resolutions"
    p.resolutions valueFields (p.resolution_parameters.map Parameter.name)
    (p.data.map DataModel.name) "resolution_parameters" "data"
  check_allowed_values layerFA "layers" p.layers
    ["thickness", "SLD", "SLD_real", "SLD_imaginary", "roughness"]
    (p.parameters.map Parameter.name) "parameters"
  check_allowed_values contrastFA "contrasts" p.contrasts ["data"]
    (p.data.map DataModel.name) "data"
  check_allowed_values contrastFA "contrasts" p.contrasts ["background"]
    (p.backgrounds.map Background.name) "backgrounds"
  check_allowed_values contrastFA "contrasts" p.contrasts ["bulk_in"]
    (p.bulk_in.map Parameter.name) "bulk_in"
  check_allowed_values contrastFA "contrasts" p.contrasts ["bulk_out"]
    (p.bulk_out.map Parameter.name) "bulk_out"
  check_allowed_values contrastFA "contrasts" p.contrasts ["scalefactor"]
    (p.scalefactors.map Parameter.name) "scalefactors"
  check_allowed_values contrastFA "contrasts" p.contrasts ["resolution"]
    (p.resolutions.map Resolution.name) "resolutions"
  check_allowed_values contrastFA "contrasts" p.contrasts ["domain_ratio"]
    (p.domain_ratios.map Parameter.name) "domain_ratios"
  check_contrast_model_allowed_values ContrastLike.modelOf "contrasts" p.contrasts
    (p.namesOfCollection p.contrast_model_field) p.contrast_model_field
  check_contrast_model_allowed_values DomainContrast.model "domain_contrasts"
    p.domain_contrasts (p.layers.map LayerLike.nameOf) "layers"

/-- One step of `check_protected_parameters`: all previously protected names
must still be protected, else the removed ones are reported. -/
def check_protected_one (old current : List String) : Option PError :=
  if ∀ element ∈ old, element ∈ current then none
  else some (.protectedRemoved (old.filter (fun q => q ∉ current)))

/-- The `(cached, current)` protected-name pairs of the seven
`parameter_class_lists`, in their definition order. -/
def protectedPairs (p : Project) : List (List String × List String) :=
  [(p.protected_parameters.parameters, Project.protectedNamesOf p.parameters),
   (p.protected_parameters.background_parameters,
     Project.protectedNamesOf p.background_parameters),
   (p.protected_parameters.scalefactors, Project.protectedNamesOf p.scalefactors),
   (p.protected_parameters.bulk_in, Project.protectedNamesOf p.bulk_in),
   (p.protected_parameters.bulk_out, Project.protectedNamesOf p.bulk_out),
   (p.protected_parameters.resolution_parameters,
     Project.protectedNamesOf p.resolution_parameters),
   (p.protected_parameters.domain_ratios, Project.protectedNamesOf p.domain_ratios)]

/-- `check_protected_parameters` (its checking part): every protected name
recorded at the previous successful validation is still protected. -/
def check_protected_parameters (p : Project) : Except PError Unit :=
  match (protectedPairs p).findSome? (fun q => check_protected_one q.1 q.2) with
  | some e => .error e
  | none => .ok ()

/-- The graph state after the five mutating validators that precede
`check_contrast_model_length` (`set_domain_ratios`, `set_domain_contrasts`,
`set_layers`, `set_calculation`, `set_contrast_model_field`, in their
definition order, which is pydantic's execution order). -/
def validators_mid (p : Project) : Project :=
  set_contrast_model_field (set_calculation (set_layers
    (set_domain_contrasts (set_domain_ratios p))))

/-- The graph state after all mutating validators (`set_absorption` and
`update_renamed_models` follow `check_contrast_model_length`), on which
`cross_check_model_values` and `check_protected_parameters` run. -/
def validators_late (p : Project) : Project :=
  update_renamed_models (set_absorption (validators_mid p))

/-- The cache refresh done by a fully successful `check_protected_parameters`
pass. -/
def commit_protected (q : Project) : Project :=
  { q with protected_parameters := q.get_all_protected_parameters }

/-- The state committed by a fully successful validation pass: the last
validator refreshes the `_protected_parameters` cache. -/
def validators_final (p : Project) : Project :=
  commit_protected (validators_late p)

/-- `Project.model_validate(self)` on an existing instance: the pydantic
`mode="after"` model validators run in definition order over the graph;
the first failing check aborts the pass with its error. -/
def run_validators (p : Project) : Except PError Project :=
  match check_contrast_model_length (validators_mid p) with
  | .error e => .error e
  | .ok _ =>
    match cross_check_model_values (validators_late p) with
    | .error e => .error e
    | .ok _ =>
      match check_protected_parameters (validators_late p) with
      | .error e => .error e
      | .ok _ => .ok (validators_final p)

/-- `model_post_init`: set the collection handles from the mode flags,
bootstrap the protected `Substrate Roughness` parameter and the
`Simulation` data entry, and initialise the three caches. -/
def model_post_init (p0 : Project) : Project :=
  let p : Project := { p0 with
    layersHandle := if p0.absorption then LayerHandle.absorptionLayerH else LayerHandle.layerH,
    contrastsHandle :=
      if p0.calculation = .Domains then ContrastHandle.withRatioH else ContrastHandle.contrastH }
  let p : Project :=
    if "Substrate Roughness" ∉ p.parameters.map (fun q => pythonTitle q.name) then
      { p with parameters := substrateRoughnessDefault :: p.parameters }
    else if "Substrate Roughness" ∉
        (Project.protectedNamesOf p.parameters).map pythonTitle then
      match classlist_lookup Parameter.name p.parameters "Substrate Roughness" with
      | some q =>
          let rest :=
            p.parameters.eraseP
              (fun r => pythonLower r.name = pythonLower "Substrate Roughness")
          { p with parameters := { q with protectedTag := true } :: rest }
      | none => p
    else p
  let p : Project :=
    if "Simulation" ∉ p.data.map (fun d => pythonTitle d.name) then
      { p with data := simulationDataDefault :: p.data }
    else p
  { p with
    all_names := p.get_all_names,
    contrast_model_field := p.get_contrast_model_field,
    protected_parameters := p.get_all_protected_parameters }

/-- Constructing `Project(...)`: `model_post_init` then the model validators. -/
def construct (p0 : Project) : Except PError Project :=
  run_validators (model_post_init p0)

/-- The freshly constructed default graph, `Project()`. -/
def defaultProject : Project :=
  match construct {} with
  | .ok p => p
  | .error _ => model_post_init {}

/-- The cross-reference invariant (spec §3, invariant 2, refined by §4.3):
every reference field with a declared target collection is either empty or
names a current member of that collection; the allowed set for background
and resolution value fields follows the entity's own `type`, and no
background or resolution has a type other than `constant` or `data`. -/
def ReferenceFieldsValid (p : Project) : Prop :=
  (∀ b ∈ p.backgrounds, b.type ≠ .Function ∧
    (b.type = .Constant → ∀ f ∈ valueFields,
      backgroundFA.get b f = "" ∨
        backgroundFA.get b f ∈ p.background_parameters.map Parameter.name) ∧
    (b.type = .Data → ∀ f ∈ valueFields,
      backgroundFA.get b f = "" ∨ backgroundFA.get b f ∈ p.data.map DataModel.name)) ∧
  (∀ r ∈ p.resolutions, r.type ≠ .Function ∧
    (r.type = .Constant → ∀ f ∈ valueFields,
      resolutionFA.get r f = "" ∨
        resolutionFA.get r f ∈ p.resolution_parameters.map Parameter.name) ∧
    (r.type = .Data → ∀ f ∈ valueFields,
      resolutionFA.get r f = "" ∨ resolutionFA.get r f ∈ p.data.map DataModel.name)) ∧
  (∀ x ∈ p.layers, ∀ f ∈ ["thickness", "SLD", "SLD_real", "SLD_imaginary", "roughness"],
    layerFA.get x f = "" ∨ layerFA.get x f ∈ p.parameters.map Parameter.name) ∧
  (∀ c ∈ p.contrasts,
    (contrastFA.get c "data" = "" ∨ contrastFA.get c "data" ∈ p.data.map DataModel.name) ∧
    (contrastFA.get c "background" = "" ∨
      contrastFA.get c "background" ∈ p.backgrounds.map Background.name) ∧
    (contrastFA.get c "bulk_in" = "" ∨
      contrastFA.get c "bulk_in" ∈ p.bulk_in.map Parameter.name) ∧
    (contrastFA.get c "bulk_out" = "" ∨
      contrastFA.get c "bulk_out" ∈ p.bulk_out.map Parameter.name) ∧
    (contrastFA.get c "scalefactor" = "" ∨
      contrastFA.get c "scalefactor" ∈ p.scalefactors.map Parameter.name) ∧
    (contrastFA.get c "resolution" = "" ∨
      contrastFA.get c "resolution" ∈ p.resolutions.map Resolution.name) ∧
    (contrastFA.get c "domain_ratio" = "" ∨
      contrastFA.get c "domain_ratio" ∈ p.domain_ratios.map Parameter.name)) ∧
  (∀ c ∈ p.contrasts, c.modelOf = [] ∨
    ∀ v ∈ c.modelOf, v ∈ p.namesOfCollection p.contrast_model_field) ∧
  (∀ dc ∈ p.domain_contrasts, dc.model = [] ∨
    ∀ v ∈ dc.model, v ∈ p.layers.map LayerLike.nameOf)

/-! ## Concrete graphs used by counterexamples and witnesses -/

/-- A fully referenced contrast (the references resolve in the default
graph's bootstrap collections). -/
def exampleContrast (m : List String) : Contrast :=
  { name := "C1", data := "Simulation", background := "Background 1", bulk_in := "SLD Air",
    bulk_out := "SLD D2O", scalefactor := "Scalefactor 1", resolution := "Resolution 1",
    model := m }

/-- The same fully referenced contrast in its domain-aware variant. -/
def exampleContrastR (m : List String) : ContrastWithRatio :=
  { name := "C1", data := "Simulation", background := "Background 1", bulk_in := "SLD Air",
    bulk_out := "SLD D2O", scalefactor := "Scalefactor 1", resolution := "Resolution 1",
    model := m }

/-- A layer whose references resolve against a parameter named `P1`. -/
def exampleLayer (nm : String) : LayerLike :=
  .layer { name := nm, thickness := "P1", SLD := "P1", roughness := "P1" }

/-- A graph whose parameters were renamed from `["A", "B"]` to `["B", "A"]`
(a swap: equal lengths, both positions changed) while a layer's reference
fields read `"A"`. -/
def swapRenameProject : Project :=
  { parameters := [{ name := "B" }, { name := "A" }],
    layers := [.layer { name := "L", thickness := "A", SLD := "A", roughness := "A" }],
    all_names := { parameters := ["A", "B"] } }

/-- A validated domains + standard-layers graph whose single contrast has an
empty model list. -/
def domainsEmptyModelProject : Project :=
  { defaultProject with
    calculation := .Domains,
    contrastsHandle := .withRatioH,
    domain_ratios := [domainRatio1Default],
    contrasts := [.withRatio (exampleContrastR [])],
    all_names := { defaultProject.all_names with
      contrasts := ["C1"], domain_ratios := ["Domain Ratio 1"] },
    contrast_model_field := "domain_contrasts" }

/-- A validated non-polarised standard-layers graph whose single contrast
models a three-layer stack. -/
def threeLayerModelProject : Project :=
  { defaultProject with
    parameters := defaultProject.parameters ++ [{ name := "P1" }],
    layers := [exampleLayer "L1", exampleLayer "L2", exampleLayer "L3"],
    contrasts := [.contrast (exampleContrast ["L1", "L2", "L3"])],
    all_names := { defaultProject.all_names with
      parameters := ["Substrate Roughness", "P1"],
      layers := ["L1", "L2", "L3"], contrasts := ["C1"] } }

/-- The default graph extended with one fully referenced contrast. -/
def oneContrastProject : Project :=
  { defaultProject with
    contrasts := [.contrast (exampleContrast [])],
    all_names := { defaultProject.all_names with contrasts := ["C1"] } }

/-- The default graph extended with one parameter and one layer. -/
def oneLayerProject : Project :=
  { defaultProject with
    parameters := defaultProject.parameters ++ [{ name := "P1" }],
    layers := [exampleLayer "L1"],
    all_names := { defaultProject.all_names with
      parameters := ["Substrate Roughness", "P1"], layers := ["L1"] } }

/-- Initial field values whose parameters hold a plain parameter `A` followed
by a protected parameter already named `Substrate Roughness`. -/
def protectedNotFirstProject : Project :=
  { parameters := [{ name := "A" },
      { name := "Substrate Roughness", protectedTag := true }] }

/-- `Project._classlist_wrapper`: snapshot the target collection, run the raw
operation, then revalidate the whole graph; on a raw-operation error or a
validation failure restore the snapshot and propagate the error, on
success keep the validated state and return the raw operation's value. -/
def classlist_wrapper {E R : Type} (getCl : Project → List E)
    (setCl : Project → List E → Project)
    (rawOp : List E → Except PError (List E × R)) (p : Project) :
    Project × Except PError R :=
  let previous_state := getCl p
  match rawOp (getCl p) with
  | .error e => (setCl p previous_state, .error e)
  | .ok q =>
      match run_validators (setCl p q.1) with
      | .error e => (setCl (setCl p q.1) previous_state, .error e)
      | .ok p2 => (p2, .ok q.2)

/-! ## Basic lemmas about the pipeline building blocks -/

lemma zip_self_filter_ne {α : Type} [DecidableEq α] (l : List α) :
    (l.zip l).filter (fun q => q.1 ≠ q.2) = [] := by
  induction l with
  | nil => rfl
  | cons a t ih => simp [List.filter, ih]

lemma propagate_renames_same {E : Type} (fa : FieldAccess E) (fields : List String)
    (l : List String) (cons : List E) :
    propagate_renames fa fields l l cons = cons := by
  unfold propagate_renames
  rw [if_pos rfl, zip_self_filter_ne]
  rfl

lemma propagate_renames_length_ne {E : Type} (fa : FieldAccess E) (fields : List String)
    (old_names new_names : List String) (cons : List E)
    (h : old_names.length ≠ new_names.length) :
    propagate_renames fa fields old_names new_names cons = cons := by
  unfold propagate_renames
  rw [if_neg h]

lemma propagate_renames_nil {E : Type} (fa : FieldAccess E) (fields : List String)
    (old_names new_names : List String) :
    propagate_renames fa fields old_names new_names [] = [] := by
  unfold propagate_renames
  split
  · generalize ((old_names.zip new_names).filter fun q => q.1 ≠ q.2) = diff
    induction diff with
    | nil => rfl
    | cons q t ih => simpa [get_all_matches] using ih
  · rfl

lemma modify_map_invariant {α β : Type} (f : α → α) (g : α → β) (i : Nat) (l : List α)
    (h : ∀ a, g (f a) = g a) : (List.modify f i l).map g = l.map g := by
  induction l generalizing i with
  | nil => simp
  | cons a t ih =>
    cases i with
    | zero => simp [List.modify_zero_cons, h]
    | succ j => simpa [List.modify_succ_cons] using ih j

lemma propagate_renames_map_invariant {E γ : Type} (fa : FieldAccess E) (g : E → γ)
    (fields : List String) (old_names new_names : List String) (cons : List E)
    (hg : ∀ e f v, f ∈ fields → g (fa.set e f v) = g e) :
    (propagate_renames fa fields old_names new_names cons).map g = cons.map g := by
  unfold propagate_renames
  split
  · generalize ((old_names.zip new_names).filter fun q => q.1 ≠ q.2) = diff
    induction diff generalizing cons with
    | nil => rfl
    | cons q t ih =>
      rw [List.foldl_cons]
      rw [ih]
      generalize get_all_matches fa cons q.1 = ms
      induction ms generalizing cons with
      | nil => rfl
      | cons m mt ihm =>
        rw [List.foldl_cons]
        rw [ihm]
        split
        · next hf => exact modify_map_invariant _ g _ _ (fun a => hg a m.2 q.2 hf)
        · rfl
  · rfl

lemma except_bind_ok_unit {ε β : Type} (x : Except ε Unit) (f : Unit → Except ε β)
    (b : β) : (x >>= f) = .ok b ↔ x = .ok () ∧ f () = .ok b := by
  cases x with
  | error e => simp [Bind.bind, Except.bind]
  | ok u => cases u; simp [Bind.bind, Except.bind]

/-! ## Inversion of the checking validators -/

lemma check_allowed_values_ok_iff {E : Type} (fa : FieldAccess E) (attr : String)
    (cl : List E) (fl : List String) (av : List String) (di : String) :
    check_allowed_values fa attr cl fl av di = .ok () ↔
      ∀ m ∈ cl, ∀ f ∈ fl, fa.get m f = "" ∨ fa.get m f ∈ av := by
  unfold check_allowed_values
  cases hfs : cl.findSome? (fun m => fl.findSome? (fun field =>
      if fa.get m field ≠ "" ∧ fa.get m field ∉ av then
        some (PError.valueNotDefined (fa.get m field) field attr di)
      else none)) with
  | some e =>
    simp only [reduceCtorEq, false_iff]
    obtain ⟨m, hm, hinner⟩ := List.exists_of_findSome?_eq_some hfs
    obtain ⟨f, hf, hit⟩ := List.exists_of_findSome?_eq_some hinner
    intro hall
    rcases hall m hm f hf with h | h <;> simp [h] at hit
  | none =>
    simp only [true_iff]
    rw [List.findSome?_eq_none_iff] at hfs
    intro m hm f hf
    have h2 := (List.findSome?_eq_none_iff).mp (hfs m hm) f hf
    by_cases hemp : fa.get m f = ""
    · exact Or.inl hemp
    · by_cases hmem : fa.get m f ∈ av
      · exact Or.inr hmem
      · simp [hemp, hmem] at h2

lemma check_bgres_ok_iff {E : Type} (fa : FieldAccess E) (typeOf : E → TypeOptions)
    (attr : String) (cl : List E) (fl : List String) (ac ad : List String)
    (dc dd : String) :
    check_allowed_background_resolution_values fa typeOf attr cl fl ac ad dc dd = .ok () ↔
      ∀ m ∈ cl, typeOf m ≠ .Function ∧
        (typeOf m = .Constant → ∀ f ∈ fl, fa.get m f = "" ∨ fa.get m f ∈ ac) ∧
        (typeOf m = .Data → ∀ f ∈ fl, fa.get m f = "" ∨ fa.get m f ∈ ad) := by
  unfold check_allowed_background_resolution_values
  cases hfs : cl.findSome? (fun m =>
      match typeOf m with
      | .Constant => fl.findSome? (fun field =>
          if fa.get m field ≠ "" ∧ fa.get m field ∉ ac then
            some (PError.valueNotDefined (fa.get m field) field attr dc)
          else none)
      | .Data => fl.findSome? (fun field =>
          if fa.get m field ≠ "" ∧ fa.get m field ∉ ad then
            some (PError.valueNotDefined (fa.get m field) field attr dd)
          else none)
      | .Function => some PError.functionTypeNotSupported) with
  | some e =>
    simp only [reduceCtorEq, false_iff]
    obtain ⟨m, hm, hinner⟩ := List.exists_of_findSome?_eq_some hfs
    intro hall
    obtain ⟨hfn, hc, hd⟩ := hall m hm
    cases ht : typeOf m with
    | Function => exact hfn ht
    | Constant =>
      rw [ht] at hinner
      obtain ⟨f, hf, hit⟩ := List.exists_of_findSome?_eq_some hinner
      rcases hc ht f hf with h | h <;> simp [h] at hit
    | Data =>
      rw [ht] at hinner
      obtain ⟨f, hf, hit⟩ := List.exists_of_findSome?_eq_some hinner
      rcases hd ht f hf with h | h <;> simp [h] at hit
  | none =>
    simp only [true_iff]
    rw [List.findSome?_eq_none_iff] at hfs
    intro m hm
    have h2 := hfs m hm
    cases ht : typeOf m with
    | Function => rw [ht] at h2; simp at h2
    | Constant =>
      rw [ht] at h2
      refine ⟨by simp [ht], fun _ f hf => ?_, by simp [ht]⟩
      have h3 := (List.findSome?_eq_none_iff).mp h2 f hf
      by_cases hemp : fa.get m f = ""
      · exact Or.inl hemp
      · by_cases hmem : fa.get m f ∈ ac
        · exact Or.inr hmem
        · simp [hemp, hmem] at h3
    | Data =>
      rw [ht] at h2
      refine ⟨by simp [ht], by simp [ht], fun _ f hf => ?_⟩
      have h3 := (List.findSome?_eq_none_iff).mp h2 f hf
      by_cases hemp : fa.get m f = ""
      · exact Or.inl hemp
      · by_cases hmem : fa.get m f ∈ ad
        · exact Or.inr hmem
        · simp [hemp, hmem] at h3

lemma check_cmodel_ok_iff {E : Type} (modelOf : E → List String) (attr : String)
    (cl : List E) (av : List String) (afld : String) :
    check_contrast_model_allowed_values modelOf attr cl av afld = .ok () ↔
      ∀ c ∈ cl, modelOf c = [] ∨ ∀ v ∈ modelOf c, v ∈ av := by
  unfold check_contrast_model_allowed_values
  cases hfs : cl.findSome? (fun contrast =>
      if modelOf contrast ≠ [] ∧ ¬(∀ v ∈ modelOf contrast, v ∈ av) then
        some (PError.modelValuesNotDefined (modelOf contrast) attr afld)
      else none) with
  | some e =>
    simp only [reduceCtorEq, false_iff]
    obtain ⟨c, hc, hit⟩ := List.exists_of_findSome?_eq_some hfs
    intro hall
    rcases hall c hc with h | h
    · simp [h] at hit
    · have hcond : ¬(modelOf c ≠ [] ∧ ¬∀ v ∈ modelOf c, v ∈ av) := fun hq => hq.2 h
      rw [if_neg hcond] at hit
      simp at hit
  | none =>
    simp only [true_iff]
    rw [List.findSome?_eq_none_iff] at hfs
    intro c hc
    have h2 := hfs c hc
    by_cases hemp : modelOf c = []
    · exact Or.inl hemp
    · by_cases hall : ∀ v ∈ modelOf c, v ∈ av
      · exact Or.inr hall
      · simp [hemp, hall] at h2

lemma check_protected_ok_iff (p : Project) :
    check_protected_parameters p = .ok () ↔
      ∀ pr ∈ protectedPairs p, ∀ nm ∈ pr.1, nm ∈ pr.2 := by
  unfold check_protected_parameters
  cases hfs : (protectedPairs p).findSome? (fun q => check_protected_one q.1 q.2) with
  | some e =>
    simp only [reduceCtorEq, false_iff]
    obtain ⟨pr, hpr, hit⟩ := List.exists_of_findSome?_eq_some hfs
    intro hall
    have hthis := hall pr hpr
    simp [check_protected_one, hthis] at hit
    obtain ⟨x, hx1, hx2⟩ := hit.1
    exact hx2 (hthis x hx1)
  | none =>
    simp only [true_iff]
    rw [List.findSome?_eq_none_iff] at hfs
    intro pr hpr nm hnm
    have h2 := hfs pr hpr
    by_cases hall : ∀ e ∈ pr.1, e ∈ pr.2
    · exact hall nm hnm
    · simp [check_protected_one, hall] at h2

lemma check_length_ok_imp (p : Project) (h : check_contrast_model_length p = .ok ()) :
    (p.model = .StandardLayers ∧ p.calculation = .Domains →
      ∀ c ∈ p.contrasts, c.modelOf = [] ∨ c.modelOf.length = 2) ∧
    (p.model ≠ .StandardLayers → ∀ c ∈ p.contrasts, c.modelOf.length ≤ 1) := by
  unfold check_contrast_model_length at h
  constructor
  · rintro ⟨h1, h2⟩ c hc
    rw [if_pos ⟨h1, h2⟩] at h
    cases hfs : p.contrasts.findSome? (fun c =>
        if c.modelOf ≠ [] ∧ c.modelOf.length ≠ 2 then some PError.modelNotTwoValues
        else none) with
    | some e => rw [hfs] at h; simp at h
    | none =>
      rw [List.findSome?_eq_none_iff] at hfs
      have h3 := hfs c hc
      by_cases hemp : c.modelOf = []
      · exact Or.inl hemp
      · by_cases hlen : c.modelOf.length = 2
        · exact Or.inr hlen
        · simp [hemp, hlen] at h3
  · intro h1 c hc
    rw [if_neg (fun hq => h1 hq.1), if_pos h1] at h
    cases hfs : p.contrasts.findSome? (fun c =>
        if c.modelOf.length > 1 then some PError.modelTooManyValues else none) with
    | some e => rw [hfs] at h; simp at h
    | none =>
      rw [List.findSome?_eq_none_iff] at hfs
      have h3 := hfs c hc
      by_cases hlen : c.modelOf.length > 1
      · simp [hlen] at h3
      · omega

/-! ## Pipeline characterisation and stage projections -/

lemma run_validators_ok (p p' : Project) (h : run_validators p = .ok p') :
    check_contrast_model_length (validators_mid p) = .ok () ∧
    cross_check_model_values (validators_late p) = .ok () ∧
    check_protected_parameters (validators_late p) = .ok () ∧
    p' = validators_final p := by
  unfold run_validators at h
  cases h1 : check_contrast_model_length (validators_mid p) with
  | error e => rw [h1] at h; cases h
  | ok u =>
    cases u
    rw [h1] at h
    cases h2 : cross_check_model_values (validators_late p) with
    | error e => rw [h2] at h; cases h
    | ok u =>
      cases u
      rw [h2] at h
      cases h3 : check_protected_parameters (validators_late p) with
      | error e => rw [h3] at h; cases h
      | ok u =>
        cases u
        rw [h3] at h
        cases h
        exact ⟨rfl, rfl, rfl, rfl⟩

@[simp] lemma set_domain_ratios_eq (p : Project) :
    set_domain_ratios p =
      { p with domain_ratios :=
          if p.calculation ≠ .Domains then [] else p.domain_ratios } := by
  unfold set_domain_ratios
  split_ifs <;> rfl

@[simp] lemma set_domain_contrasts_eq (p : Project) :
    set_domain_contrasts p =
      { p with domain_contrasts :=
          if ¬(p.calculation = .Domains ∧ p.model = .StandardLayers) then []
          else p.domain_contrasts } := by
  unfold set_domain_contrasts
  split_ifs <;> rfl

@[simp] lemma set_layers_eq (p : Project) :
    set_layers p =
      { p with layers := if p.model ≠ .StandardLayers then [] else p.layers } := by
  unfold set_layers
  split_ifs <;> rfl

@[simp] lemma set_calculation_calculation (p : Project) :
    (set_calculation p).calculation = p.calculation := by
  unfold set_calculation; split_ifs <;> rfl

@[simp] lemma set_calculation_model (p : Project) :
    (set_calculation p).model = p.model := by
  unfold set_calculation; split_ifs <;> rfl

@[simp] lemma set_calculation_absorption (p : Project) :
    (set_calculation p).absorption = p.absorption := by
  unfold set_calculation; split_ifs <;> rfl

@[simp] lemma set_calculation_parameters (p : Project) :
    (set_calculation p).parameters = p.parameters := by
  unfold set_calculation; split_ifs <;> rfl

@[simp] lemma set_calculation_bulk_in (p : Project) :
    (set_calculation p).bulk_in = p.bulk_in := by
  unfold set_calculation; split_ifs <;> rfl

@[simp] lemma set_calculation_bulk_out (p : Project) :
    (set_calculation p).bulk_out = p.bulk_out := by
  unfold set_calculation; split_ifs <;> rfl

@[simp] lemma set_calculation_scalefactors (p : Project) :
    (set_calculation p).scalefactors = p.scalefactors := by
  unfold set_calculation; split_ifs <;> rfl

@[simp] lemma set_calculation_background_parameters (p : Project) :
    (set_calculation p).background_parameters = p.background_parameters := by
  unfold set_calculation; split_ifs <;> rfl

@[simp] lemma set_calculation_resolution_parameters (p : Project) :
    (set_calculation p).resolution_parameters = p.resolution_parameters := by
  unfold set_calculation; split_ifs <;> rfl

@[simp] lemma set_calculation_backgrounds (p : Project) :
    (set_calculation p).backgrounds = p.backgrounds := by
  unfold set_calculation; split_ifs <;> rfl

@[simp] lemma set_calculation_resolutions (p : Project) :
    (set_calculation p).resolutions = p.resolutions := by
  unfold set_calculation; split_ifs <;> rfl

@[simp] lemma set_calculation_custom_files (p : Project) :
    (set_calculation p).custom_files = p.custom_files := by
  unfold set_calculation; split_ifs <;> rfl

@[simp] lemma set_calculation_data (p : Project) :
    (set_calculation p).data = p.data := by
  unfold set_calculation; split_ifs <;> rfl

@[simp] lemma set_calculation_layers (p : Project) :
    (set_calculation p).layers = p.layers := by
  unfold set_calculation; split_ifs <;> rfl

@[simp] lemma set_calculation_domain_contrasts (p : Project) :
    (set_calculation p).domain_contrasts = p.domain_contrasts := by
  unfold set_calculation; split_ifs <;> rfl

@[simp] lemma set_calculation_layersHandle (p : Project) :
    (set_calculation p).layersHandle = p.layersHandle := by
  unfold set_calculation; split_ifs <;> rfl

@[simp] lemma set_calculation_all_names (p : Project) :
    (set_calculation p).all_names = p.all_names := by
  unfold set_calculation; split_ifs <;> rfl

@[simp] lemma set_calculation_contrast_model_field (p : Project) :
    (set_calculation p).contrast_model_field = p.contrast_model_field := by
  unfold set_calculation; split_ifs <;> rfl

@[simp] lemma set_calculation_protected_parameters (p : Project) :
    (set_calculation p).protected_parameters = p.protected_parameters := by
  unfold set_calculation; split_ifs <;> rfl

lemma set_calculation_domain_ratios_of_ne (p : Project) (h : p.calculation ≠ .Domains) :
    (set_calculation p).domain_ratios = p.domain_ratios := by
  unfold set_calculation
  rw [if_neg (fun hq => h hq.1)]
  split_ifs <;> rfl

@[simp] lemma set_contrast_model_field_calculation (p : Project) :
    (set_contrast_model_field p).calculation = p.calculation := by
  simp only [set_contrast_model_field]; split_ifs <;> rfl

@[simp] lemma set_contrast_model_field_model (p : Project) :
    (set_contrast_model_field p).model = p.model := by
  simp only [set_contrast_model_field]; split_ifs <;> rfl

@[simp] lemma set_contrast_model_field_absorption (p : Project) :
    (set_contrast_model_field p).absorption = p.absorption := by
  simp only [set_contrast_model_field]; split_ifs <;> rfl

@[simp] lemma set_contrast_model_field_parameters (p : Project) :
    (set_contrast_model_field p).parameters = p.parameters := by
  simp only [set_contrast_model_field]; split_ifs <;> rfl

@[simp] lemma set_contrast_model_field_bulk_in (p : Project) :
    (set_contrast_model_field p).bulk_in = p.bulk_in := by
  simp only [set_contrast_model_field]; split_ifs <;> rfl

@[simp] lemma set_contrast_model_field_bulk_out (p : Project) :
    (set_contrast_model_field p).bulk_out = p.bulk_out := by
  simp only [set_contrast_model_field]; split_ifs <;> rfl

@[simp] lemma set_contrast_model_field_scalefactors (p : Project) :
    (set_contrast_model_field p).scalefactors = p.scalefactors := by
  simp only [set_contrast_model_field]; split_ifs <;> rfl

@[simp] lemma set_contrast_model_field_background_parameters (p : Project) :
    (set_contrast_model_field p).background_parameters = p.background_parameters := by
  simp only [set_contrast_model_field]; split_ifs <;> rfl

@[simp] lemma set_contrast_model_field_resolution_parameters (p : Project) :
    (set_contrast_model_field p).resolution_parameters = p.resolution_parameters := by
  simp only [set_contrast_model_field]; split_ifs <;> rfl

@[simp] lemma set_contrast_model_field_backgrounds (p : Project) :
    (set_contrast_model_field p).backgrounds = p.backgrounds := by
  simp only [set_contrast_model_field]; split_ifs <;> rfl

@[simp] lemma set_contrast_model_field_resolutions (p : Project) :
    (set_contrast_model_field p).resolutions = p.resolutions := by
  simp only [set_contrast_model_field]; split_ifs <;> rfl

@[simp] lemma set_contrast_model_field_custom_files (p : Project) :
    (set_contrast_model_field p).custom_files = p.custom_files := by
  simp only [set_contrast_model_field]; split_ifs <;> rfl

@[simp] lemma set_contrast_model_field_data (p : Project) :
    (set_contrast_model_field p).data = p.data := by
  simp only [set_contrast_model_field]; split_ifs <;> rfl

@[simp] lemma set_contrast_model_field_layers (p : Project) :
    (set_contrast_model_field p).layers = p.layers := by
  simp only [set_contrast_model_field]; split_ifs <;> rfl

@[simp] lemma set_contrast_model_field_domain_ratios (p : Project) :
    (set_contrast_model_field p).domain_ratios = p.domain_ratios := by
  simp only [set_contrast_model_field]; split_ifs <;> rfl

@[simp] lemma set_contrast_model_field_domain_contrasts (p : Project) :
    (set_contrast_model_field p).domain_contrasts = p.domain_contrasts := by
  simp only [set_contrast_model_field]; split_ifs <;> rfl

@[simp] lemma set_contrast_model_field_layersHandle (p : Project) :
    (set_contrast_model_field p).layersHandle = p.layersHandle := by
  simp only [set_contrast_model_field]; split_ifs <;> rfl

@[simp] lemma set_contrast_model_field_contrastsHandle (p : Project) :
    (set_contrast_model_field p).contrastsHandle = p.contrastsHandle := by
  simp only [set_contrast_model_field]; split_ifs <;> rfl

@[simp] lemma set_contrast_model_field_all_names (p : Project) :
    (set_contrast_model_field p).all_names = p.all_names := by
  simp only [set_contrast_model_field]; split_ifs <;> rfl

@[simp] lemma set_absorption_calculation (p : Project) :
    (set_absorption p).calculation = p.calculation := by
  unfold set_absorption; split_ifs <;> rfl

@[simp] lemma set_absorption_model (p : Project) :
    (set_absorption p).model = p.model := by
  unfold set_absorption; split_ifs <;> rfl

@[simp] lemma set_absorption_absorption (p : Project) :
    (set_absorption p).absorption = p.absorption := by
  unfold set_absorption; split_ifs <;> rfl

@[simp] lemma set_absorption_parameters (p : Project) :
    (set_absorption p).parameters = p.parameters := by
  unfold set_absorption; split_ifs <;> rfl

@[simp] lemma set_absorption_bulk_in (p : Project) :
    (set_absorption p).bulk_in = p.bulk_in := by
  unfold set_absorption; split_ifs <;> rfl

@[simp] lemma set_absorption_bulk_out (p : Project) :
    (set_absorption p).bulk_out = p.bulk_out := by
  unfold set_absorption; split_ifs <;> rfl

@[simp] lemma set_absorption_scalefactors (p : Project) :
    (set_absorption p).scalefactors = p.scalefactors := by
  unfold set_absorption; split_ifs <;> rfl

@[simp] lemma set_absorption_background_parameters (p : Project) :
    (set_absorption p).background_parameters = p.background_parameters := by
  unfold set_absorption; split_ifs <;> rfl

@[simp] lemma set_absorption_resolution_parameters (p : Project) :
    (set_absorption p).resolution_parameters = p.resolution_parameters := by
  unfold set_absorption; split_ifs <;> rfl

@[simp] lemma set_absorption_backgrounds (p : Project) :
    (set_absorption p).backgrounds = p.backgrounds := by
  unfold set_absorption; split_ifs <;> rfl

@[simp] lemma set_absorption_resolutions (p : Project) :
    (set_absorption p).resolutions = p.resolutions := by
  unfold set_absorption; split_ifs <;> rfl

@[simp] lemma set_absorption_custom_files (p : Project) :
    (set_absorption p).custom_files = p.custom_files := by
  unfold set_absorption; split_ifs <;> rfl

@[simp] lemma set_absorption_data (p : Project) :
    (set_absorption p).data = p.data := by
  unfold set_absorption; split_ifs <;> rfl

@[simp] lemma set_absorption_domain_ratios (p : Project) :
    (set_absorption p).domain_ratios = p.domain_ratios := by
  unfold set_absorption; split_ifs <;> rfl

@[simp] lemma set_absorption_domain_contrasts (p : Project) :
    (set_absorption p).domain_contrasts = p.domain_contrasts := by
  unfold set_absorption; split_ifs <;> rfl

@[simp] lemma set_absorption_contrasts (p : Project) :
    (set_absorption p).contrasts = p.contrasts := by
  unfold set_absorption; split_ifs <;> rfl

@[simp] lemma set_absorption_contrastsHandle (p : Project) :
    (set_absorption p).contrastsHandle = p.contrastsHandle := by
  unfold set_absorption; split_ifs <;> rfl

@[simp] lemma set_absorption_all_names (p : Project) :
    (set_absorption p).all_names = p.all_names := by
  unfold set_absorption; split_ifs <;> rfl

@[simp] lemma set_absorption_contrast_model_field (p : Project) :
    (set_absorption p).contrast_model_field = p.contrast_model_field := by
  unfold set_absorption; split_ifs <;> rfl

@[simp] lemma set_absorption_protected_parameters (p : Project) :
    (set_absorption p).protected_parameters = p.protected_parameters := by
  unfold set_absorption; split_ifs <;> rfl

lemma set_absorption_layers_nil (p : Project) (h : p.layers = []) :
    (set_absorption p).layers = [] := by
  unfold set_absorption
  split_ifs <;> simp [h]

@[simp] lemma update_renamed_models_calculation (p : Project) :
    (update_renamed_models p).calculation = p.calculation := rfl

@[simp] lemma update_renamed_models_model (p : Project) :
    (update_renamed_models p).model = p.model := rfl

@[simp] lemma update_renamed_models_absorption (p : Project) :
    (update_renamed_models p).absorption = p.absorption := rfl

@[simp] lemma update_renamed_models_parameters (p : Project) :
    (update_renamed_models p).parameters = p.parameters := rfl

@[simp] lemma update_renamed_models_bulk_in (p : Project) :
    (update_renamed_models p).bulk_in = p.bulk_in := rfl

@[simp] lemma update_renamed_models_bulk_out (p : Project) :
    (update_renamed_models p).bulk_out = p.bulk_out := rfl

@[simp] lemma update_renamed_models_scalefactors (p : Project) :
    (update_renamed_models p).scalefactors = p.scalefactors := rfl

@[simp] lemma update_renamed_models_background_parameters (p : Project) :
    (update_renamed_models p).background_parameters = p.background_parameters := rfl

@[simp] lemma update_renamed_models_resolution_parameters (p : Project) :
    (update_renamed_models p).resolution_parameters = p.resolution_parameters := rfl

@[simp] lemma update_renamed_models_custom_files (p : Project) :
    (update_renamed_models p).custom_files = p.custom_files := rfl

@[simp] lemma update_renamed_models_data (p : Project) :
    (update_renamed_models p).data = p.data := rfl

@[simp] lemma update_renamed_models_domain_ratios (p : Project) :
    (update_renamed_models p).domain_ratios = p.domain_ratios := rfl

@[simp] lemma update_renamed_models_domain_contrasts (p : Project) :
    (update_renamed_models p).domain_contrasts = p.domain_contrasts := rfl

@[simp] lemma update_renamed_models_layersHandle (p : Project) :
    (update_renamed_models p).layersHandle = p.layersHandle := rfl

@[simp] lemma update_renamed_models_contrastsHandle (p : Project) :
    (update_renamed_models p).contrastsHandle = p.contrastsHandle := rfl

@[simp] lemma update_renamed_models_contrast_model_field (p : Project) :
    (update_renamed_models p).contrast_model_field = p.contrast_model_field := rfl

@[simp] lemma update_renamed_models_protected_parameters (p : Project) :
    (update_renamed_models p).protected_parameters = p.protected_parameters := rfl

lemma update_renamed_models_layers (p : Project) :
    (update_renamed_models p).layers =
      propagate_renames layerFA layersRenameFields p.all_names.parameters
        (p.parameters.map Parameter.name) p.layers := rfl

@[simp] lemma commit_protected_backgrounds (q : Project) :
    (commit_protected q).backgrounds = q.backgrounds := rfl

@[simp] lemma commit_protected_resolutions (q : Project) :
    (commit_protected q).resolutions = q.resolutions := rfl

@[simp] lemma commit_protected_layers (q : Project) :
    (commit_protected q).layers = q.layers := rfl

@[simp] lemma commit_protected_contrasts (q : Project) :
    (commit_protected q).contrasts = q.contrasts := rfl

@[simp] lemma commit_protected_data (q : Project) :
    (commit_protected q).data = q.data := rfl

@[simp] lemma commit_protected_parameters (q : Project) :
    (commit_protected q).parameters = q.parameters := rfl

@[simp] lemma commit_protected_background_parameters (q : Project) :
    (commit_protected q).background_parameters = q.background_parameters := rfl

@[simp] lemma commit_protected_resolution_parameters (q : Project) :
    (commit_protected q).resolution_parameters = q.resolution_parameters := rfl

@[simp] lemma commit_protected_bulk_in (q : Project) :
    (commit_protected q).bulk_in = q.bulk_in := rfl

@[simp] lemma commit_protected_bulk_out (q : Project) :
    (commit_protected q).bulk_out = q.bulk_out := rfl

@[simp] lemma commit_protected_scalefactors (q : Project) :
    (commit_protected q).scalefactors = q.scalefactors := rfl

@[simp] lemma commit_protected_domain_ratios (q : Project) :
    (commit_protected q).domain_ratios = q.domain_ratios := rfl

@[simp] lemma commit_protected_domain_contrasts (q : Project) :
    (commit_protected q).domain_contrasts = q.domain_contrasts := rfl

@[simp] lemma commit_protected_custom_files (q : Project) :
    (commit_protected q).custom_files = q.custom_files := rfl

@[simp] lemma commit_protected_calculation (q : Project) :
    (commit_protected q).calculation = q.calculation := rfl

@[simp] lemma commit_protected_model (q : Project) :
    (commit_protected q).model = q.model := rfl

@[simp] lemma commit_protected_absorption (q : Project) :
    (commit_protected q).absorption = q.absorption := rfl

@[simp] lemma commit_protected_layersHandle (q : Project) :
    (commit_protected q).layersHandle = q.layersHandle := rfl

@[simp] lemma commit_protected_contrastsHandle (q : Project) :
    (commit_protected q).contrastsHandle = q.contrastsHandle := rfl

@[simp] lemma commit_protected_all_names (q : Project) :
    (commit_protected q).all_names = q.all_names := rfl

@[simp] lemma commit_protected_contrast_model_field (q : Project) :
    (commit_protected q).contrast_model_field = q.contrast_model_field := rfl

@[simp] lemma commit_protected_namesOfCollection (q : Project) (f : String) :
    (commit_protected q).namesOfCollection f = q.namesOfCollection f := rfl

/-! ## Claim theorems -/

/-- **C1** — Mutation-guard atomicity: for every wrapped mutating operation on
any collection of the graph (modelled by a get/set pair obeying the usual
collection-access laws and an arbitrary raw operation), a raw-operation
error leaves the graph untouched and propagates; a validation failure
after the raw operation restores the collection's entity sequence to its
pre-call value and propagates the error; and a successful validation
commits the validated state and returns the raw operation's value. -/
theorem C1_mutation_guard_atomicity {E R : Type} (getCl : Project → List E)
    (setCl : Project → List E → Project)
    (hget_set : ∀ q d, getCl (setCl q d) = d)
    (hset_get : ∀ q, setCl q (getCl q) = q)
    (rawOp : List E → Except PError (List E × R)) (p : Project) :
    (∀ e, rawOp (getCl p) = .error e →
      classlist_wrapper getCl setCl rawOp p = (p, .error e)) ∧
    (∀ d r e, rawOp (getCl p) = .ok (d, r) →
      run_validators (setCl p d) = .error e →
      (classlist_wrapper getCl setCl rawOp p).2 = .error e ∧
      getCl (classlist_wrapper getCl setCl rawOp p).1 = getCl p) ∧
    (∀ d r p2, rawOp (getCl p) = .ok (d, r) →
      run_validators (setCl p d) = .ok p2 →
      classlist_wrapper getCl setCl rawOp p = (p2, .ok r)) := by
  refine ⟨?_, ?_, ?_⟩
  · intro e he
    have hw : classlist_wrapper getCl setCl rawOp p = (setCl p (getCl p), .error e) := by
      unfold classlist_wrapper
      rw [he]
    rw [hw, hset_get]
  · intro d r e hok herr
    have hw : classlist_wrapper getCl setCl rawOp p =
        (setCl (setCl p d) (getCl p), .error e) := by
      unfold classlist_wrapper
      rw [hok]
      dsimp only
      rw [herr]
    rw [hw]
    exact ⟨rfl, hget_set _ _⟩
  · intro d r p2 hok hval
    have hw : classlist_wrapper getCl setCl rawOp p = (p2, .ok r) := by
      unfold classlist_wrapper
      rw [hok]
      dsimp only
      rw [hval]
    rw [hw]

/-- Witness for C1: removing the protected `Substrate Roughness` parameter
from the freshly constructed default graph fails validation; the error
propagates and the parameters sequence is restored. -/
theorem C1_mutation_guard_atomicity_witness :
    (classlist_wrapper (fun q => q.parameters) (fun q d => { q with parameters := d })
        (fun d => classlist_remove Parameter.name d "Substrate Roughness")
        defaultProject).2 =
      .error (.protectedRemoved ["Substrate Roughness"]) ∧
    (classlist_wrapper (fun q => q.parameters) (fun q d => { q with parameters := d })
        (fun d => classlist_remove Parameter.name d "Substrate Roughness")
        defaultProject).1.parameters = defaultProject.parameters := by
  have h := C1_mutation_guard_atomicity (fun q => q.parameters)
    (fun q d => { q with parameters := d }) (fun _ _ => rfl) (fun _ => rfl)
    (fun d => classlist_remove Parameter.name d "Substrate Roughness") defaultProject
  exact h.2.1 [] () (.protectedRemoved ["Substrate Roughness"]) (by decide) (by decide)

/-- **C5** — Forced-empty collections: after every successful validation,
`domain_ratios` is empty unless the calculation is domains,
`domain_contrasts` is empty unless the calculation is domains with
standard layers, and `layers` is empty unless the layer model is standard
layers. -/
theorem C5_forced_empty_collections (p p' : Project) (h : run_validators p = .ok p') :
    (p'.calculation ≠ .Domains → p'.domain_ratios = []) ∧
    (¬(p'.calculation = .Domains ∧ p'.model = .StandardLayers) →
      p'.domain_contrasts = []) ∧
    (p'.model ≠ .StandardLayers → p'.layers = []) := by
  obtain ⟨h1, h2, h3, rfl⟩ := run_validators_ok p p' h
  refine ⟨?_, ?_, ?_⟩
  · intro hne
    have hcalc : p.calculation ≠ .Domains := by
      simpa [validators_final, validators_late, validators_mid] using hne
    show (validators_final p).domain_ratios = []
    simp [validators_final, validators_late, validators_mid,
      set_calculation_domain_ratios_of_ne, hcalc]
  · intro hne
    have hflag : ¬(p.calculation = .Domains ∧ p.model = .StandardLayers) := by
      simpa [validators_final, validators_late, validators_mid] using hne
    show (validators_final p).domain_contrasts = []
    simp [validators_final, validators_late, validators_mid, hflag]
  · intro hne
    have hmodel : p.model ≠ .StandardLayers := by
      simpa [validators_final, validators_late, validators_mid] using hne
    show (validators_final p).layers = []
    have hmidnil : (validators_mid p).layers = [] := by
      simp [validators_mid, hmodel]
    simp [validators_final, validators_late, update_renamed_models_layers,
      set_absorption_layers_nil _ hmidnil, propagate_renames_nil]

/-- Witness for C5: the default graph revalidates successfully, its
calculation is not domains and its layer model is standard layers, and the
two domains collections are empty. -/
theorem C5_forced_empty_collections_witness :
    run_validators defaultProject = .ok (validators_final defaultProject) ∧
    ((validators_final defaultProject).calculation ≠ .Domains →
      (validators_final defaultProject).domain_ratios = []) ∧
    (¬((validators_final defaultProject).calculation = .Domains ∧
        (validators_final defaultProject).model = .StandardLayers) →
      (validators_final defaultProject).domain_contrasts = []) ∧
    ((validators_final defaultProject).model ≠ .StandardLayers →
      (validators_final defaultProject).layers = []) := by
  have hrun : run_validators defaultProject = .ok (validators_final defaultProject) := by
    decide
  exact ⟨hrun, C5_forced_empty_collections defaultProject _ hrun⟩

/-- **C2** — Cross-reference invariant: after every successful validation,
every non-empty reference-field value with a declared target names a
current entry of that target collection; for backgrounds and resolutions
the target follows the entity's own type (`constant` → the corresponding
parameter collection, `data` → the data collection), and no entity of any
other type survives validation. -/
theorem C2_cross_reference_invariant (p p' : Project)
    (h : run_validators p = .ok p') : ReferenceFieldsValid p' := by
  obtain ⟨-, h2, -, rfl⟩ := run_validators_ok p p' h
  unfold cross_check_model_values at h2
  rw [except_bind_ok_unit] at h2; obtain ⟨hb1, h2⟩ := h2
  rw [except_bind_ok_unit] at h2; obtain ⟨hb2, h2⟩ := h2
  rw [except_bind_ok_unit] at h2; obtain ⟨hb3, h2⟩ := h2
  rw [except_bind_ok_unit] at h2; obtain ⟨hb4, h2⟩ := h2
  rw [except_bind_ok_unit] at h2; obtain ⟨hb5, h2⟩ := h2
  rw [except_bind_ok_unit] at h2; obtain ⟨hb6, h2⟩ := h2
  rw [except_bind_ok_unit] at h2; obtain ⟨hb7, h2⟩ := h2
  rw [except_bind_ok_unit] at h2; obtain ⟨hb8, h2⟩ := h2
  rw [except_bind_ok_unit] at h2; obtain ⟨hb9, h2⟩ := h2
  rw [except_bind_ok_unit] at h2; obtain ⟨hb10, h2⟩ := h2
  rw [except_bind_ok_unit] at h2; obtain ⟨hb11, hb12⟩ := h2
  rw [check_bgres_ok_iff] at hb1 hb2
  rw [check_allowed_values_ok_iff] at hb3 hb4 hb5 hb6 hb7 hb8 hb9 hb10
  rw [check_cmodel_ok_iff] at hb11 hb12
  unfold ReferenceFieldsValid validators_final
  simp only [commit_protected_backgrounds, commit_protected_resolutions,
    commit_protected_layers, commit_protected_contrasts, commit_protected_data,
    commit_protected_parameters, commit_protected_background_parameters,
    commit_protected_resolution_parameters, commit_protected_bulk_in,
    commit_protected_bulk_out, commit_protected_scalefactors,
    commit_protected_domain_ratios, commit_protected_domain_contrasts,
    commit_protected_contrast_model_field, commit_protected_namesOfCollection]
  refine ⟨hb1, hb2, hb3, ?_, hb11, hb12⟩
  intro c hc
  exact ⟨hb4 c hc "data" (by simp), hb5 c hc "background" (by simp),
    hb6 c hc "bulk_in" (by simp), hb7 c hc "bulk_out" (by simp),
    hb8 c hc "scalefactor" (by simp), hb9 c hc "resolution" (by simp),
    hb10 c hc "domain_ratio" (by simp)⟩

/-- Witness for C2: the default graph revalidates successfully and the
committed state satisfies the cross-reference invariant. -/
theorem C2_cross_reference_invariant_witness :
    run_validators defaultProject = .ok (validators_final defaultProject) ∧
    ReferenceFieldsValid (validators_final defaultProject) := by
  have hrun : run_validators defaultProject = .ok (validators_final defaultProject) := by
    decide
  exact ⟨hrun, C2_cross_reference_invariant defaultProject _ hrun⟩

lemma contrastFA_set_modelOf (c : ContrastLike) (f v : String) :
    (contrastFA.set c f v).modelOf = c.modelOf := by
  cases c <;> simp only [contrastFA, ContrastLike.modelOf] <;> split_ifs <;> rfl

lemma update_renamed_models_contrasts_map_modelOf (q : Project) :
    (update_renamed_models q).contrasts.map ContrastLike.modelOf =
      q.contrasts.map ContrastLike.modelOf := by
  have key : ∀ (fds o n : List String) (cs : List ContrastLike),
      (propagate_renames contrastFA fds o n cs).map ContrastLike.modelOf =
        cs.map ContrastLike.modelOf :=
    fun fds o n cs => propagate_renames_map_invariant contrastFA ContrastLike.modelOf
      fds o n cs (fun e f v _ => contrastFA_set_modelOf e f v)
  simp only [update_renamed_models]
  simp only [key]

/-- **C6** (amended) — Mode-dependent model-length bounds: after every
successful validation, under domains + standard layers every contrast's
model list is empty or has length exactly two, and whenever the layer
model is not standard layers every contrast's model list has length at
most one.  (Under standard layers without domains the length is
unconstrained, and an empty list is accepted under domains.) -/
theorem C6_model_length_bounds (p p' : Project) (h : run_validators p = .ok p') :
    (p'.model = .StandardLayers ∧ p'.calculation = .Domains →
      ∀ c ∈ p'.contrasts, c.modelOf = [] ∨ c.modelOf.length = 2) ∧
    (p'.model ≠ .StandardLayers → ∀ c ∈ p'.contrasts, c.modelOf.length ≤ 1) := by
  obtain ⟨h1, -, -, rfl⟩ := run_validators_ok p p' h
  have hlen := check_length_ok_imp _ h1
  have hm : (validators_final p).model = (validators_mid p).model := by
    simp [validators_final, validators_late]
  have hc : (validators_final p).calculation = (validators_mid p).calculation := by
    simp [validators_final, validators_late]
  have hmods : (validators_final p).contrasts.map ContrastLike.modelOf =
      (validators_mid p).contrasts.map ContrastLike.modelOf := by
    simp only [validators_final, validators_late, commit_protected_contrasts,
      update_renamed_models_contrasts_map_modelOf, set_absorption_contrasts]
  constructor
  · rintro ⟨hmS, hcD⟩ c hcmem
    have hmem2 : c.modelOf ∈ (validators_mid p).contrasts.map ContrastLike.modelOf := by
      rw [← hmods]
      exact List.mem_map_of_mem _ hcmem
    obtain ⟨c0, hc0, he⟩ := List.mem_map.mp hmem2
    have hres := hlen.1 ⟨by rw [← hm]; exact hmS, by rw [← hc]; exact hcD⟩ c0 hc0
    rw [he] at hres
    exact hres
  · intro hmS c hcmem
    have hmem2 : c.modelOf ∈ (validators_mid p).contrasts.map ContrastLike.modelOf := by
      rw [← hmods]
      exact List.mem_map_of_mem _ hcmem
    obtain ⟨c0, hc0, he⟩ := List.mem_map.mp hmem2
    have hres := hlen.2 (by rw [← hm]; exact hmS) c0 hc0
    rw [he] at hres
    exact hres

/-- Witness for C6 (amended): a domains + standard-layers graph with a
two-layer contrast model validates and satisfies the bounds. -/
theorem C6_model_length_bounds_witness :
    run_validators domainsEmptyModelProject =
      .ok (validators_final domainsEmptyModelProject) ∧
    ((validators_final domainsEmptyModelProject).model = .StandardLayers ∧
        (validators_final domainsEmptyModelProject).calculation = .Domains →
      ∀ c ∈ (validators_final domainsEmptyModelProject).contrasts,
        c.modelOf = [] ∨ c.modelOf.length = 2) := by
  have hrun : run_validators domainsEmptyModelProject =
      .ok (validators_final domainsEmptyModelProject) := by decide
  exact ⟨hrun, (C6_model_length_bounds domainsEmptyModelProject _ hrun).1⟩

/-- Counterexample for C6 as stated: a domains + standard-layers graph whose
contrast has an *empty* model list validates successfully (so "length
exactly two" fails), and a standard-layers non-domains graph whose
contrast models three layers also validates successfully (so "length at
most one under every other combination" fails). -/
theorem C6_model_length_counterexample :
    (run_validators domainsEmptyModelProject).map
        (fun q => (q.model, q.calculation, q.contrasts.map (fun c => c.modelOf.length)))
      = .ok (.StandardLayers, .Domains, [0]) ∧
    (run_validators threeLayerModelProject).map
        (fun q => (q.model, q.calculation, q.contrasts.map (fun c => c.modelOf.length)))
      = .ok (.StandardLayers, .NonPolarised, [3]) := by
  constructor
  · decide
  · decide

lemma findSome?_isSome_of_exists {α β : Type} (f : α → Option β) (l : List α)
    (h : ∃ x ∈ l, (f x).isSome) : ∃ e, l.findSome? f = some e := by
  cases hfs : l.findSome? f with
  | some e => exact ⟨e, rfl⟩
  | none =>
    rw [List.findSome?_eq_none_iff] at hfs
    obtain ⟨x, hx, hs⟩ := h
    rw [hfs x hx] at hs
    simp at hs

/-- **C3** — Protected-parameter guard: on the freshly constructed default
graph, removing the bootstrap protected parameter `Substrate Roughness`
through the mutation wrapper raises an error naming it and leaves the
parameters collection unchanged with length 1; and in general, whenever
some name recorded as protected at the last successful validation is no
longer among a parameter collection's protected entries,
`check_protected_parameters` fails with a non-empty list of exactly such
removed names. -/
theorem C3_protected_parameter_guard :
    ((classlist_wrapper (fun q => q.parameters) (fun q d => { q with parameters := d })
        (fun d => classlist_remove Parameter.name d "Substrate Roughness")
        defaultProject).2 = .error (.protectedRemoved ["Substrate Roughness"]) ∧
      (classlist_wrapper (fun q => q.parameters) (fun q d => { q with parameters := d })
        (fun d => classlist_remove Parameter.name d "Substrate Roughness")
        defaultProject).1.parameters = defaultProject.parameters ∧
      defaultProject.parameters.length = 1) ∧
    (∀ p : Project, (∃ pr ∈ protectedPairs p, ∃ nm ∈ pr.1, nm ∉ pr.2) →
      ∃ rem, check_protected_parameters p = .error (.protectedRemoved rem) ∧
        rem ≠ [] ∧ ∀ nm ∈ rem, ∃ pr ∈ protectedPairs p, nm ∈ pr.1 ∧ nm ∉ pr.2) := by
  constructor
  · exact ⟨by decide, by decide, by decide⟩
  · intro p hex
    obtain ⟨pr, hpr, nm, hnm1, hnm2⟩ := hex
    have hsome : ∃ e, (protectedPairs p).findSome?
        (fun q => check_protected_one q.1 q.2) = some e := by
      apply findSome?_isSome_of_exists
      refine ⟨pr, hpr, ?_⟩
      unfold check_protected_one
      rw [if_neg (fun hall => hnm2 (hall nm hnm1))]
      simp
    obtain ⟨e, he⟩ := hsome
    obtain ⟨pr', hpr', hone⟩ := List.exists_of_findSome?_eq_some he
    unfold check_protected_one at hone
    split_ifs at hone with hall
    refine ⟨pr'.1.filter (fun q => q ∉ pr'.2), ?_, ?_, ?_⟩
    · unfold check_protected_parameters
      rw [he, ← hone]
    · push_neg at hall
      obtain ⟨x, hx1, hx2⟩ := hall
      exact List.ne_nil_of_mem (List.mem_filter.mpr ⟨hx1, by simpa using hx2⟩)
    · intro nm' hnm'
      have := List.mem_filter.mp hnm'
      exact ⟨pr', hpr', this.1, by simpa using this.2⟩

/-- Witness for C3: clearing the parameters collection under the default
graph's caches removes the recorded protected name `Substrate Roughness`,
so the guard fails with the removed names listed. -/
theorem C3_protected_parameter_guard_witness :
    (∃ pr ∈ protectedPairs { defaultProject with parameters := [] },
      ∃ nm ∈ pr.1, nm ∉ pr.2) ∧
    (∃ rem, check_protected_parameters { defaultProject with parameters := [] } =
        .error (.protectedRemoved rem) ∧ rem ≠ [] ∧
        ∀ nm ∈ rem, ∃ pr ∈ protectedPairs { defaultProject with parameters := [] },
          nm ∈ pr.1 ∧ nm ∉ pr.2) :=
  ⟨by decide, C3_protected_parameter_guard.2 _ (by decide)⟩

/-- Counterexample for C8 as stated: on the freshly constructed default graph
(whose data collection holds exactly the bootstrap `Simulation` entry), a
wrapped `remove` of `Simulation` from the data collection succeeds — the
wrapper returns the raw operation's value, validation passes, and the
entry is gone afterwards. -/
theorem C8_simulation_removal_counterexample :
    (classlist_wrapper (fun q => q.data) (fun q d => { q with data := d })
        (fun d => classlist_remove DataModel.name d "Simulation")
        defaultProject).2 = .ok () ∧
    (classlist_wrapper (fun q => q.data) (fun q d => { q with data := d })
        (fun d => classlist_remove DataModel.name d "Simulation")
        defaultProject).1.data = [] ∧
    defaultProject.data = [simulationDataDefault] := by
  exact ⟨by decide, by decide, by decide⟩

/-- **C8** (amended) — The protected-entity guard covers only the
`ProtectedParameter` entries of the seven parameter collections: it does
not depend on the data collection at all, so the bootstrap `Simulation`
data entry (re-created at construction when absent) can be removed by a
wrapped mutation, which succeeds and leaves the data collection without
it. -/
theorem C8_simulation_not_protected :
    (∀ (p : Project) (d : List DataModel),
      check_protected_parameters { p with data := d } = check_protected_parameters p) ∧
    (classlist_wrapper (fun q => q.data) (fun q d => { q with data := d })
        (fun d => classlist_remove DataModel.name d "Simulation")
        defaultProject).2 = .ok () ∧
    (classlist_wrapper (fun q => q.data) (fun q d => { q with data := d })
        (fun d => classlist_remove DataModel.name d "Simulation")
        defaultProject).1.data = [] ∧
    (∀ p0 : Project, "Simulation" ∈
        (model_post_init p0).data.map (fun d => pythonTitle d.name)) := by
  refine ⟨fun p d => rfl, by decide, by decide, ?_⟩
  intro p0
  unfold model_post_init
  dsimp only
  split_ifs with h1 h2 h3 h4 h5 h6
  all_goals simp_all [simulationDataDefault, pythonTitle, pythonTitleAux]

/-- **C7** — Switching to domains: on a validated graph holding the
non-domain contrast variant (handle `Contrast`, empty `domain_ratios`,
caches in sync with the state, standard layers, non-polarised
calculation), setting `calculation := domains` and revalidating converts
every contrast to the domain-aware variant, sets the collection handle to
`ContrastWithRatio`, replaces `domain_ratios` with exactly the single
default entity named `Domain Ratio 1`, and defaults every converted
contrast's `domain_ratio` reference field to that entity's name. -/
theorem C7_domains_conversion (p p' : Project)
    (hmodel : p.model = .StandardLayers)
    (hhandle : p.contrastsHandle = .contrastH)
    (hdr : p.domain_ratios = [])
    (hcmf : p.contrast_model_field = "layers")
    (hnames : p.all_names = p.get_all_names)
    (hvariant : ∀ c ∈ p.contrasts, ∃ cc, c = ContrastLike.contrast cc)
    (h : run_validators { p with calculation := .Domains } = .ok p') :
    p'.contrastsHandle = .withRatioH ∧
    p'.domain_ratios = [domainRatio1Default] ∧
    p'.contrasts = p.contrasts.map
      (fun c => (ContrastLike.withRatio (toWithRatio c)).setModel []) ∧
    ∀ c' ∈ p'.contrasts, ∃ cw, c' = .withRatio cw ∧
      cw.domain_ratio = "Domain Ratio 1" := by
  obtain ⟨-, -, -, rfl⟩ := run_validators_ok _ _ h
  have hmid : validators_mid { p with calculation := .Domains } = { p with
      calculation := .Domains,
      contrasts := p.contrasts.map
        (fun c => (ContrastLike.withRatio (toWithRatio c)).setModel []),
      domain_ratios := [domainRatio1Default],
      contrastsHandle := .withRatioH,
      contrast_model_field := "domain_contrasts" } := by
    unfold validators_mid
    simp [set_calculation, set_contrast_model_field, Project.get_contrast_model_field,
      hmodel, hhandle, hdr, hcmf]
  have hlateC : (validators_late { p with calculation := .Domains }).contrasts =
      p.contrasts.map (fun c => (ContrastLike.withRatio (toWithRatio c)).setModel []) := by
    rw [validators_late, hmid]
    simp [update_renamed_models, Project.get_all_names, hnames, hdr,
      propagate_renames_same, propagate_renames_length_ne]
  have hlateD : (validators_late { p with calculation := .Domains }).domain_ratios =
      [domainRatio1Default] := by
    rw [validators_late, hmid]
    simp
  have hlateH : (validators_late { p with calculation := .Domains }).contrastsHandle =
      .withRatioH := by
    rw [validators_late, hmid]
    simp
  refine ⟨?_, ?_, ?_, ?_⟩
  · rw [validators_final, commit_protected_contrastsHandle, hlateH]
  · rw [validators_final, commit_protected_domain_ratios, hlateD]
  · rw [validators_final, commit_protected_contrasts, hlateC]
  · intro c' hc'
    rw [validators_final, commit_protected_contrasts, hlateC] at hc'
    obtain ⟨c, hc, rfl⟩ := List.mem_map.mp hc'
    obtain ⟨cc, rfl⟩ := hvariant c hc
    exact ⟨{ toWithRatio (.contrast cc) with model := [] }, rfl, rfl⟩

/-- Witness for C7: switching the default graph extended with one fully
referenced contrast to a domains calculation. -/
theorem C7_domains_conversion_witness :
    run_validators { oneContrastProject with calculation := .Domains } =
      .ok (validators_final { oneContrastProject with calculation := .Domains }) ∧
    ((validators_final { oneContrastProject with calculation := .Domains }).contrastsHandle
        = .withRatioH ∧
      (validators_final { oneContrastProject with calculation := .Domains }).domain_ratios
        = [domainRatio1Default] ∧
      (validators_final { oneContrastProject with calculation := .Domains }).contrasts =
        oneContrastProject.contrasts.map
          (fun c => (ContrastLike.withRatio (toWithRatio c)).setModel []) ∧
      ∀ c' ∈ (validators_final { oneContrastProject with calculation := .Domains }).contrasts,
        ∃ cw, c' = .withRatio cw ∧ cw.domain_ratio = "Domain Ratio 1") := by
  have hrun : run_validators { oneContrastProject with calculation := .Domains } =
      .ok (validators_final { oneContrastProject with calculation := .Domains }) := by
    decide
  refine ⟨hrun, C7_domains_conversion oneContrastProject _ (by decide) (by decide)
    (by decide) (by decide) (by decide) ?_ hrun⟩
  intro c hc
  exact ⟨exampleContrast [], List.eq_of_mem_singleton hc⟩

lemma update_renamed_models_all_names_consistent (q : Project) :
    (update_renamed_models q).all_names = (update_renamed_models q).get_all_names := rfl

lemma run_validators_flags (p p' : Project) (h : run_validators p = .ok p') :
    p'.calculation = p.calculation ∧ p'.model = p.model ∧ p'.absorption = p.absorption := by
  obtain ⟨-, -, -, rfl⟩ := run_validators_ok _ _ h
  refine ⟨?_, ?_, ?_⟩ <;> simp [validators_final, validators_late, validators_mid]

lemma commit_protected_get_all_names (q : Project) :
    (commit_protected q).get_all_names = q.get_all_names := by
  unfold Project.get_all_names
  simp

lemma run_validators_all_names (p p' : Project) (h : run_validators p = .ok p') :
    p'.all_names = p'.get_all_names := by
  obtain ⟨-, -, -, rfl⟩ := run_validators_ok _ _ h
  show (commit_protected (validators_late p)).all_names =
    (commit_protected (validators_late p)).get_all_names
  rw [commit_protected_all_names, commit_protected_get_all_names]
  exact update_renamed_models_all_names_consistent _

lemma absorption_on_layers (p p1 : Project)
    (hmodel : p.model = .StandardLayers)
    (hhandle : p.layersHandle = .layerH)
    (hnames : p.all_names = p.get_all_names)
    (h : run_validators { p with absorption := true } = .ok p1) :
    p1.layers = p.layers.map (fun x => .absorptionLayer (toAbsorptionLayer x)) ∧
    p1.layersHandle = .absorptionLayerH := by
  obtain ⟨-, -, -, rfl⟩ := run_validators_ok _ _ h
  have hmidL : (validators_mid { p with absorption := true }).layers = p.layers := by
    simp [validators_mid, hmodel]
  have hmidH : (validators_mid { p with absorption := true }).layersHandle =
      p.layersHandle := by
    simp [validators_mid]
  have hmidA : (validators_mid { p with absorption := true }).absorption = true := by
    simp [validators_mid]
  have hsa : set_absorption (validators_mid { p with absorption := true }) =
      { validators_mid { p with absorption := true } with
        layers := (validators_mid { p with absorption := true }).layers.map
          (fun l => .absorptionLayer (toAbsorptionLayer l)),
        layersHandle := .absorptionLayerH } := by
    unfold set_absorption
    rw [if_pos ⟨hmidA, by rw [hmidH, hhandle]⟩]
  constructor
  · rw [validators_final, commit_protected_layers, validators_late,
      update_renamed_models_layers, hsa]
    simp only [hmidL]
    have hsrc : (validators_mid { p with absorption := true }).all_names.parameters =
        p.parameters.map Parameter.name := by
      simp [validators_mid, hnames, Project.get_all_names]
    have hcur : (validators_mid { p with absorption := true }).parameters = p.parameters := by
      simp [validators_mid]
    simp only [hsrc, hcur]
    exact propagate_renames_same _ _ _ _
  · rw [validators_final, commit_protected_layersHandle, validators_late,
      update_renamed_models_layersHandle, hsa]

lemma absorption_off_layers (q q2 : Project)
    (hmodel : q.model = .StandardLayers)
    (hhandle : q.layersHandle = .absorptionLayerH)
    (hnames : q.all_names = q.get_all_names)
    (h : run_validators { q with absorption := false } = .ok q2) :
    q2.layers = q.layers.map (fun x => .layer (toPlainLayer x)) ∧
    q2.layersHandle = .layerH := by
  obtain ⟨-, -, -, rfl⟩ := run_validators_ok _ _ h
  have hmidL : (validators_mid { q with absorption := false }).layers = q.layers := by
    simp [validators_mid, hmodel]
  have hmidH : (validators_mid { q with absorption := false }).layersHandle =
      q.layersHandle := by
    simp [validators_mid]
  have hmidA : (validators_mid { q with absorption := false }).absorption = false := by
    simp [validators_mid]
  have hsa : set_absorption (validators_mid { q with absorption := false }) =
      { validators_mid { q with absorption := false } with
        layers := (validators_mid { q with absorption := false }).layers.map
          (fun l => .layer (toPlainLayer l)),
        layersHandle := .layerH } := by
    unfold set_absorption
    rw [if_neg (fun hq => by rw [hmidA] at hq; exact Bool.false_ne_true hq.1),
      if_pos ⟨hmidA, by rw [hmidH, hhandle]⟩]
  constructor
  · rw [validators_final, commit_protected_layers, validators_late,
      update_renamed_models_layers, hsa]
    simp only [hmidL]
    have hsrc : (validators_mid { q with absorption := false }).all_names.parameters =
        q.parameters.map Parameter.name := by
      simp [validators_mid, hnames, Project.get_all_names]
    have hcur : (validators_mid { q with absorption := false }).parameters =
        q.parameters := by
      simp [validators_mid]
    simp only [hsrc, hcur]
    exact propagate_renames_same _ _ _ _
  · rw [validators_final, commit_protected_layersHandle, validators_late,
      update_renamed_models_layersHandle, hsa]

/-- **C9** — Absorption round trip: with standard layers, toggling absorption
on converts every layer to the absorption variant (preserving all field
values, the SLD reference feeding the real-SLD field, and defaulting the
added imaginary-SLD reference to empty) and updates the collection
handle; toggling back off drops the imaginary-SLD field from every layer
(even if it was edited in between — the edit is lost), so the
false–true–false round trip restores the original layers exactly when
they held the plain variant. -/
theorem C9_absorption_round_trip (p p1 : Project)
    (hmodel : p.model = .StandardLayers)
    (hhandle : p.layersHandle = .layerH)
    (hnames : p.all_names = p.get_all_names)
    (h1 : run_validators { p with absorption := true } = .ok p1) :
    (p1.layers = p.layers.map (fun x => .absorptionLayer (toAbsorptionLayer x)) ∧
      p1.layersHandle = .absorptionLayerH ∧
      ∀ l : Layer, toAbsorptionLayer (.layer l) =
        { name := l.name, thickness := l.thickness, SLD_real := l.SLD,
          SLD_imaginary := "", roughness := l.roughness, hydration := l.hydration,
          hydrate_with := l.hydrate_with }) ∧
    (∀ (edited : List LayerLike) (p2 : Project),
      edited.map LayerLike.nameOf = p1.layers.map LayerLike.nameOf →
      run_validators { p1 with layers := edited, absorption := false } = .ok p2 →
      p2.layers = edited.map (fun x => .layer (toPlainLayer x))) ∧
    (∀ (a : AbsorptionLayer) (v : String),
      toPlainLayer (.absorptionLayer { a with SLD_imaginary := v }) =
        toPlainLayer (.absorptionLayer a)) ∧
    (∀ p2, run_validators { p1 with absorption := false } = .ok p2 →
      (∀ x ∈ p.layers, ∃ l, x = .layer l) → p2.layers = p.layers) := by
  obtain ⟨hL1, hH1⟩ := absorption_on_layers p p1 hmodel hhandle hnames h1
  have hflags := run_validators_flags _ _ h1
  have hnames1 := run_validators_all_names _ _ h1
  refine ⟨⟨hL1, hH1, fun l => rfl⟩, ?_, fun a v => rfl, ?_⟩
  · intro edited p2 hn h2
    have hq : Project.get_all_names { p1 with layers := edited } =
        Project.get_all_names p1 := by
      unfold Project.get_all_names
      simp [hn]
    obtain ⟨hL2, -⟩ := absorption_off_layers { p1 with layers := edited } p2
      (by simpa using hflags.2.1.trans hmodel) (by simpa using hH1)
      (by simpa [hq] using hnames1) h2
    simpa using hL2
  · intro p2 h2 hplain
    obtain ⟨hL2, -⟩ := absorption_off_layers p1 p2
      (hflags.2.1.trans hmodel) hH1 hnames1 h2
    rw [hL2, hL1, List.map_map]
    rw [show p.layers = p.layers.map id from (List.map_id _).symm]
    rw [List.map_map]
    apply List.map_congr_left
    intro x hx
    obtain ⟨l, rfl⟩ := hplain x hx
    rfl

/-- Witness for C9: toggling absorption on for the default graph extended
with one layer converts the layer to the absorption variant. -/
theorem C9_absorption_round_trip_witness :
    run_validators { oneLayerProject with absorption := true } =
      .ok (validators_final { oneLayerProject with absorption := true }) ∧
    ((validators_final { oneLayerProject with absorption := true }).layers =
        oneLayerProject.layers.map (fun x => .absorptionLayer (toAbsorptionLayer x)) ∧
      (validators_final { oneLayerProject with absorption := true }).layersHandle =
        .absorptionLayerH ∧
      ∀ l : Layer, toAbsorptionLayer (.layer l) =
        { name := l.name, thickness := l.thickness, SLD_real := l.SLD,
          SLD_imaginary := "", roughness := l.roughness, hydration := l.hydration,
          hydrate_with := l.hydrate_with }) := by
  have hrun : run_validators { oneLayerProject with absorption := true } =
      .ok (validators_final { oneLayerProject with absorption := true }) := by decide
  exact ⟨hrun, (C9_absorption_round_trip oneLayerProject _ (by decide) (by decide)
    (by decide) hrun).1⟩

/-! ## The rename propagator as a map over the consumer collection -/

lemma fold_matches_head {E : Type} (fa : FieldAccess E) (fields : List String)
    (v : String) (fs : List String) (x : E) (xs : List E) :
    (fs.map (fun f => ((0 : Nat), f))).foldl
      (fun c m => if m.2 ∈ fields then List.modify (fun e => fa.set e m.2 v) m.1 c else c)
      (x :: xs) =
    (fs.foldl (fun e' f => if f ∈ fields then fa.set e' f v else e') x) :: xs := by
  induction fs generalizing x with
  | nil => rfl
  | cons f ft ih =>
    simp only [List.map_cons, List.foldl_cons]
    have h1 : (if f ∈ fields then List.modify (fun e => fa.set e f v) 0 (x :: xs)
        else x :: xs) = (if f ∈ fields then fa.set x f v else x) :: xs := by
      split_ifs <;> simp [List.modify_zero_cons]
    rw [h1]
    exact ih _

lemma fold_matches_shift {E : Type} (fa : FieldAccess E) (fields : List String)
    (v : String) (ms : List (Nat × String)) (x : E) (xs : List E) :
    ((ms.map (fun m => (m.1 + 1, m.2))).foldl
      (fun c m => if m.2 ∈ fields then List.modify (fun e => fa.set e m.2 v) m.1 c else c)
      (x :: xs)) =
    x :: ms.foldl
      (fun c m => if m.2 ∈ fields then List.modify (fun e => fa.set e m.2 v) m.1 c else c)
      xs := by
  induction ms generalizing xs with
  | nil => rfl
  | cons m mt ih =>
    simp only [List.map_cons, List.foldl_cons]
    have h1 : (if m.2 ∈ fields then List.modify (fun e => fa.set e m.2 v) (m.1 + 1) (x :: xs)
        else x :: xs) =
        x :: (if m.2 ∈ fields then List.modify (fun e => fa.set e m.2 v) m.1 xs else xs) := by
      split_ifs <;> simp [List.modify_succ_cons]
    rw [h1]
    exact ih _

lemma fold_all_matches {E : Type} (fa : FieldAccess E) (fields : List String)
    (nm v : String) (cons : List E) :
    (get_all_matches fa cons nm).foldl
      (fun c m => if m.2 ∈ fields then List.modify (fun e => fa.set e m.2 v) m.1 c else c)
      cons =
    cons.map (rewrite_fields fa fields nm v) := by
  induction cons with
  | nil => rfl
  | cons e t ih =>
    show ((((fa.fieldNames e).filter (fun f => fa.get e f = nm)).map (fun f => ((0 : Nat), f))
        ++ (get_all_matches fa t nm).map (fun p : Nat × String => (p.1 + 1, p.2))).foldl _
        (e :: t)) = _
    rw [List.foldl_append, fold_matches_head, fold_matches_shift, ih]
    rfl

lemma foldl_map_comm {E P : Type} (F : P → E → E) (ps : List P) (cons : List E) :
    ps.foldl (fun c q => c.map (F q)) cons =
      cons.map (fun e => ps.foldl (fun e' q => F q e') e) := by
  induction ps generalizing cons with
  | nil => simp
  | cons q t ih =>
    simp only [List.foldl_cons]
    rw [ih, List.map_map]
    rfl

lemma propagate_renames_eq_map {E : Type} (fa : FieldAccess E) (fields : List String)
    (old_names new_names : List String) (cons : List E)
    (hlen : old_names.length = new_names.length) :
    propagate_renames fa fields old_names new_names cons =
      cons.map (fun e => ((old_names.zip new_names).filter (fun q => q.1 ≠ q.2)).foldl
        (fun e' q => rewrite_fields fa fields q.1 q.2 e') e) := by
  unfold propagate_renames
  rw [if_pos hlen]
  have h1 : ∀ (diff : List (String × String)) (cs : List E),
      diff.foldl (fun cons q => (get_all_matches fa cons q.1).foldl
        (fun c m => if m.2 ∈ fields then List.modify (fun e => fa.set e m.2 q.2) m.1 c
          else c) cons) cs =
      diff.foldl (fun cs q => cs.map (rewrite_fields fa fields q.1 q.2)) cs := by
    intro diff
    induction diff with
    | nil => intro cs; rfl
    | cons q t iht =>
      intro cs
      simp only [List.foldl_cons]
      rw [fold_all_matches]
      exact iht _
  rw [h1]
  exact foldl_map_comm _ _ _

lemma fold_set_get {E : Type} (fa : FieldAccess E) (fields : List String)
    (L1 : ∀ e (f v : String), f ∈ fa.fieldNames e → fa.get (fa.set e f v) f = v)
    (L2 : ∀ e (f g v : String), f ≠ g → fa.get (fa.set e f v) g = fa.get e g)
    (L3 : ∀ e (f v : String), fa.fieldNames (fa.set e f v) = fa.fieldNames e)
    (v : String) (l : List String) (e : E) (hl : l.Nodup)
    (hsub : ∀ g ∈ l, g ∈ fa.fieldNames e) (f : String) :
    fa.get (l.foldl (fun e' g => if g ∈ fields then fa.set e' g v else e') e) f =
      if f ∈ l ∧ f ∈ fields then v else fa.get e f := by
  induction l generalizing e with
  | nil => simp
  | cons g t ih =>
    simp only [List.foldl_cons]
    have hgmem : g ∈ fa.fieldNames e := hsub g (by simp)
    have hsub' : ∀ g' ∈ t, g' ∈ fa.fieldNames (if g ∈ fields then fa.set e g v else e) := by
      intro g' hg'
      split_ifs
      · rw [L3]; exact hsub g' (by simp [hg'])
      · exact hsub g' (by simp [hg'])
    rw [ih _ (List.nodup_cons.mp hl).2 hsub']
    by_cases hft : f ∈ t ∧ f ∈ fields
    · rw [if_pos hft, if_pos ⟨List.mem_cons_of_mem g hft.1, hft.2⟩]
    · rw [if_neg hft]
      by_cases hfg : f = g
      · subst hfg
        by_cases hffld : f ∈ fields
        · rw [if_pos hffld, L1 e f v hgmem, if_pos ⟨List.mem_cons_self f t, hffld⟩]
        · rw [if_neg hffld, if_neg (fun hq => hffld hq.2)]
      · have h2 : fa.get (if g ∈ fields then fa.set e g v else e) f = fa.get e f := by
          split_ifs
          · exact L2 e g f v (Ne.symm hfg)
          · rfl
        rw [h2]
        simp [List.mem_cons, hfg, hft]

lemma rewrite_fields_get {E : Type} (fa : FieldAccess E) (fields : List String)
    (L1 : ∀ e (f v : String), f ∈ fa.fieldNames e → fa.get (fa.set e f v) f = v)
    (L2 : ∀ e (f g v : String), f ≠ g → fa.get (fa.set e f v) g = fa.get e g)
    (L3 : ∀ e (f v : String), fa.fieldNames (fa.set e f v) = fa.fieldNames e)
    (L4 : ∀ e, (fa.fieldNames e).Nodup)
    (nm v : String) (e : E) (f : String) (hf : f ∈ fa.fieldNames e) (hfld : f ∈ fields) :
    fa.get (rewrite_fields fa fields nm v e) f =
      if fa.get e f = nm then v else fa.get e f := by
  unfold rewrite_fields
  rw [fold_set_get fa fields L1 L2 L3 v _ e ((L4 e).filter _)
    (fun g hg => (List.mem_filter.mp hg).1) f]
  by_cases hval : fa.get e f = nm
  · rw [if_pos ⟨List.mem_filter.mpr ⟨hf, by simp [hval]⟩, hfld⟩, if_pos hval]
  · rw [if_neg (fun hq => hval (by simpa using (List.mem_filter.mp hq.1).2)), if_neg hval]

lemma rewrite_fields_fieldNames {E : Type} (fa : FieldAccess E) (fields : List String)
    (L3 : ∀ e (f v : String), fa.fieldNames (fa.set e f v) = fa.fieldNames e)
    (nm v : String) (e : E) :
    fa.fieldNames (rewrite_fields fa fields nm v e) = fa.fieldNames e := by
  unfold rewrite_fields
  have key : ∀ (l : List String) (e : E),
      fa.fieldNames (l.foldl (fun e' g => if g ∈ fields then fa.set e' g v else e') e) =
        fa.fieldNames e := by
    intro l
    induction l with
    | nil => intro e; rfl
    | cons g t ih =>
      intro e
      simp only [List.foldl_cons]
      rw [ih]
      split_ifs
      · exact L3 e g v
      · rfl
  exact key _ _

lemma pairs_fold_get {E : Type} (fa : FieldAccess E) (fields : List String)
    (L1 : ∀ e (f v : String), f ∈ fa.fieldNames e → fa.get (fa.set e f v) f = v)
    (L2 : ∀ e (f g v : String), f ≠ g → fa.get (fa.set e f v) g = fa.get e g)
    (L3 : ∀ e (f v : String), fa.fieldNames (fa.set e f v) = fa.fieldNames e)
    (L4 : ∀ e, (fa.fieldNames e).Nodup)
    (pairs : List (String × String))
    (hno : ∀ q ∈ pairs, ∀ q' ∈ pairs, q.2 ≠ q'.1)
    (e : E) (f : String) (hf : f ∈ fa.fieldNames e) (hfld : f ∈ fields) :
    fa.get (pairs.foldl (fun e' q => rewrite_fields fa fields q.1 q.2 e') e) f =
      (pairs.find? (fun q => q.1 = fa.get e f)).elim (fa.get e f) Prod.snd := by
  induction pairs generalizing e with
  | nil => simp
  | cons q t ih =>
    simp only [List.foldl_cons]
    have hf1 : f ∈ fa.fieldNames (rewrite_fields fa fields q.1 q.2 e) := by
      rw [rewrite_fields_fieldNames fa fields L3]; exact hf
    rw [ih (fun a ha b hb => hno a (List.mem_cons_of_mem q ha) b (List.mem_cons_of_mem q hb))
      _ hf1]
    rw [rewrite_fields_get fa fields L1 L2 L3 L4 q.1 q.2 e f hf hfld]
    by_cases hval : fa.get e f = q.1
    · rw [if_pos hval]
      have hnone : t.find? (fun q' => q'.1 = q.2) = none := by
        rw [List.find?_eq_none]
        intro q' hq'
        simpa using Ne.symm (hno q (List.mem_cons_self q t) q' (List.mem_cons_of_mem q hq'))
      rw [hnone]
      have hhead : (q :: t).find? (fun q' => q'.1 = fa.get e f) = some q := by
        simp [List.find?, hval]
      rw [hhead]
      rfl
    · rw [if_neg hval]
      have hd : decide (q.1 = fa.get e f) = false :=
        decide_eq_false (fun h => hval (Eq.symm h))
      have hhead : (q :: t).find? (fun q' => q'.1 = fa.get e f) =
          t.find? (fun q' => q'.1 = fa.get e f) :=
        List.find?_cons_of_neg _ (by rw [hd]; exact Bool.false_ne_true)
      rw [hhead]

lemma zip_self_map {A B : Type} (l : List A) (F : A → B) :
    l.zip (l.map F) = l.map (fun a => (a, F a)) := by
  induction l with
  | nil => rfl
  | cons a t ih => simp [ih]

/-- **C4** (amended) — Rename propagation: when the recorded and current name
lists of a source collection have equal length, the positionally changed
`(old, new)` pairs are applied to the consumer collection in order, so —
provided no changed position's new name coincides with any changed
position's old name (no swaps or rename chains) — every registered
reference field whose value equals a changed old name is rewritten to the
new name paired with the first matching changed position (e.g. renaming
the parameter `T1` to `T1b` rewrites a layer's `thickness` field from
`T1` to `T1b`), and every other registered field keeps its value; when
the lengths differ, the propagator rewrites nothing. -/
theorem C4_rename_propagation {E : Type} (fa : FieldAccess E) (fields : List String)
    (L1 : ∀ e (f v : String), f ∈ fa.fieldNames e → fa.get (fa.set e f v) f = v)
    (L2 : ∀ e (f g v : String), f ≠ g → fa.get (fa.set e f v) g = fa.get e g)
    (L3 : ∀ e (f v : String), fa.fieldNames (fa.set e f v) = fa.fieldNames e)
    (L4 : ∀ e, (fa.fieldNames e).Nodup)
    (old_names new_names : List String) (cons : List E) :
    (old_names.length ≠ new_names.length →
      propagate_renames fa fields old_names new_names cons = cons) ∧
    (old_names.length = new_names.length →
      (∀ q ∈ (old_names.zip new_names).filter (fun q => q.1 ≠ q.2),
        ∀ q' ∈ (old_names.zip new_names).filter (fun q => q.1 ≠ q.2), q.2 ≠ q'.1) →
      (propagate_renames fa fields old_names new_names cons).length = cons.length ∧
      ∀ ep ∈ cons.zip (propagate_renames fa fields old_names new_names cons),
        ∀ f ∈ fa.fieldNames ep.1, f ∈ fields →
          fa.get ep.2 f =
            (((old_names.zip new_names).filter (fun q => q.1 ≠ q.2)).find?
              (fun q => q.1 = fa.get ep.1 f)).elim (fa.get ep.1 f) Prod.snd) := by
  constructor
  · exact propagate_renames_length_ne fa fields old_names new_names cons
  · intro hlen hno
    rw [propagate_renames_eq_map fa fields old_names new_names cons hlen]
    constructor
    · simp
    · intro ep hep f hf hfld
      rw [zip_self_map] at hep
      obtain ⟨e, he, rfl⟩ := List.mem_map.mp hep
      exact pairs_fold_get fa fields L1 L2 L3 L4 _ hno e f hf hfld

lemma layerFA_get_set (e : LayerLike) (f v : String) (hf : f ∈ layerFA.fieldNames e) :
    layerFA.get (layerFA.set e f v) f = v := by
  cases e with
  | layer l =>
    simp only [layerFA] at hf ⊢
    fin_cases hf <;> simp
  | absorptionLayer a =>
    simp only [layerFA] at hf ⊢
    fin_cases hf <;> simp

lemma layerFA_get_set_ne (e : LayerLike) (f g v : String) (hfg : f ≠ g) :
    layerFA.get (layerFA.set e f v) g = layerFA.get e g := by
  cases e with
  | layer l =>
    by_cases hf : f ∈ layerFA.fieldNames (.layer l)
    · simp only [layerFA] at hf
      fin_cases hf <;> (simp [layerFA]; try split_ifs <;> simp_all)
    · simp only [layerFA, List.mem_cons, not_or] at hf
      obtain ⟨n1, n2, n3, n4, n5, -⟩ := hf
      simp [layerFA, n1, n2, n3, n4, n5]
  | absorptionLayer a =>
    by_cases hf : f ∈ layerFA.fieldNames (.absorptionLayer a)
    · simp only [layerFA] at hf
      fin_cases hf <;> (simp [layerFA]; try split_ifs <;> simp_all)
    · simp only [layerFA, List.mem_cons, not_or] at hf
      obtain ⟨n1, n2, n3, n4, n5, n6, -⟩ := hf
      simp [layerFA, n1, n2, n3, n4, n5, n6]

lemma layerFA_fieldNames_set (e : LayerLike) (f v : String) :
    layerFA.fieldNames (layerFA.set e f v) = layerFA.fieldNames e := by
  cases e <;> simp only [layerFA] <;> split_ifs <;> rfl

lemma layerFA_fieldNames_nodup (e : LayerLike) : (layerFA.fieldNames e).Nodup := by
  cases e <;> simp [layerFA]

/-- Witness for C4 (amended): renaming the parameter `T1` to `T1b` rewrites
the single layer's `thickness` field accordingly. -/
theorem C4_rename_propagation_witness :
    (propagate_renames layerFA layersRenameFields ["T1"] ["T1b"]
        [.layer { name := "L", thickness := "T1", SLD := "", roughness := "" }]).length
      = 1 ∧
    ∀ ep ∈ (([.layer { name := "L", thickness := "T1", SLD := "", roughness := "" }] :
        List LayerLike)).zip
        (propagate_renames layerFA layersRenameFields ["T1"] ["T1b"]
          [.layer { name := "L", thickness := "T1", SLD := "", roughness := "" }]),
      ∀ f ∈ layerFA.fieldNames ep.1, f ∈ layersRenameFields →
        layerFA.get ep.2 f =
          (((["T1"].zip ["T1b"]).filter (fun q => q.1 ≠ q.2)).find?
            (fun q => q.1 = layerFA.get ep.1 f)).elim (layerFA.get ep.1 f) Prod.snd :=
  (C4_rename_propagation layerFA layersRenameFields layerFA_get_set layerFA_get_set_ne
    layerFA_fieldNames_set layerFA_fieldNames_nodup ["T1"] ["T1b"]
    [.layer { name := "L", thickness := "T1", SLD := "", roughness := "" }]).2
    rfl (by decide)

/-- Counterexample for C4 as stated: with recorded names `["A", "B"]` and
current names `["B", "A"]` (equal lengths; both positions changed), the
layer's registered `thickness` field equals the old name `"A"` of changed
position 0, whose new name is `"B"` — yet after `update_renamed_models`
the field reads `"A"`, not `"B"`: the second pair `("B", "A")` rewrote
the first pair's result. -/
theorem C4_rename_propagation_counterexample :
    swapRenameProject.all_names.parameters = ["A", "B"] ∧
    swapRenameProject.parameters.map Parameter.name = ["B", "A"] ∧
    "thickness" ∈ layersRenameFields ∧
    swapRenameProject.layers.map (fun x => layerFA.get x "thickness") = ["A"] ∧
    (update_renamed_models swapRenameProject).layers.map
      (fun x => layerFA.get x "thickness") ≠ ["B"] ∧
    (update_renamed_models swapRenameProject).layers.map
      (fun x => layerFA.get x "thickness") = ["A"] := by
  exact ⟨by decide, by decide, by decide, by decide, by decide, by decide⟩

/-! ## Case lemmas for the bootstrap title comparison -/

lemma char_toNat_ofNat (m : Nat) (h : m.isValidChar) : (Char.ofNat m).toNat = m := by
  simp [Char.ofNat, h, Char.ofNatAux, Char.toNat, UInt32.toNat]

lemma toLower_toUpper (c : Char) : c.toUpper.toLower = c.toLower := by
  unfold Char.toUpper Char.toLower
  by_cases h : c.toNat ≥ 97 ∧ c.toNat ≤ 122
  · rw [if_pos h]
    have hval : (c.toNat - 32).isValidChar := Or.inl (by omega)
    have ht : (Char.ofNat (c.toNat - 32)).toNat = c.toNat - 32 := char_toNat_ofNat _ hval
    rw [if_pos (by rw [ht]; omega)]
    rw [if_neg (by omega)]
    rw [ht]
    have h32 : c.toNat - 32 + 32 = c.toNat := by omega
    rw [h32]
    exact Char.ofNat_toNat c
  · rw [if_neg h]

lemma toLower_toLower (c : Char) : c.toLower.toLower = c.toLower := by
  unfold Char.toLower
  dsimp only
  by_cases h : c.toNat ≥ 65 ∧ c.toNat ≤ 90
  · rw [if_pos h]
    have hval : (c.toNat + 32).isValidChar := Or.inl (by omega)
    have ht : (Char.ofNat (c.toNat + 32)).toNat = c.toNat + 32 := char_toNat_ofNat _ hval
    rw [if_neg (by rw [ht]; omega)]
  · rw [if_neg h, if_neg h]

lemma map_toLower_pythonTitleAux (b : Bool) (cs : List Char) :
    (pythonTitleAux b cs).map Char.toLower = cs.map Char.toLower := by
  induction cs generalizing b with
  | nil => rfl
  | cons c t ih =>
    simp only [pythonTitleAux, List.map_cons]
    rw [ih]
    congr 1
    split_ifs
    · exact toLower_toLower c
    · exact toLower_toUpper c
    · rfl

lemma pythonLower_pythonTitle (s : String) :
    pythonLower (pythonTitle s) = pythonLower s := by
  unfold pythonLower pythonTitle
  exact congrArg String.mk (map_toLower_pythonTitleAux false s.data)

/-- **C10** (amended) — Substrate-roughness bootstrap: at construction, if no
parameters entry's name title-cases to `Substrate Roughness`, the default
protected parameter is inserted at index 0; if such an entry exists but
none of the protected entries titles to it, the (case-insensitively
addressed) entry is removed and reinserted at index 0 as a protected
parameter carrying the same field values; consequently, whenever the
initial parameters hold no protected entry titling to
`Substrate Roughness`, the constructed parameters collection starts with
a protected parameter whose name equals `Substrate Roughness` up to case.
(When a protected entry titling to it already exists, the collection is
left unchanged and index 0 is arbitrary — see the counterexample.) -/
theorem C10_substrate_roughness_bootstrap :
    (∀ p0 : Project,
      "Substrate Roughness" ∉ p0.parameters.map (fun q => pythonTitle q.name) →
      (model_post_init p0).parameters = substrateRoughnessDefault :: p0.parameters) ∧
    (∀ p0 : Project,
      "Substrate Roughness" ∈ p0.parameters.map (fun q => pythonTitle q.name) →
      "Substrate Roughness" ∉
        (Project.protectedNamesOf p0.parameters).map pythonTitle →
      ∃ q, classlist_lookup Parameter.name p0.parameters "Substrate Roughness" = some q ∧
        (model_post_init p0).parameters = { q with protectedTag := true } ::
          p0.parameters.eraseP
            (fun r => pythonLower r.name = pythonLower "Substrate Roughness")) ∧
    (∀ p0 : Project,
      "Substrate Roughness" ∉
        (Project.protectedNamesOf p0.parameters).map pythonTitle →
      ∃ hd tl, (model_post_init p0).parameters = hd :: tl ∧ hd.protectedTag = true ∧
        pythonLower hd.name = pythonLower "Substrate Roughness") := by
  have part1 : ∀ p0 : Project,
      "Substrate Roughness" ∉ p0.parameters.map (fun q => pythonTitle q.name) →
      (model_post_init p0).parameters = substrateRoughnessDefault :: p0.parameters := by
    intro p0 h
    unfold model_post_init
    dsimp only
    rw [if_pos h]
    split_ifs <;> rfl
  have part2 : ∀ p0 : Project,
      "Substrate Roughness" ∈ p0.parameters.map (fun q => pythonTitle q.name) →
      "Substrate Roughness" ∉
        (Project.protectedNamesOf p0.parameters).map pythonTitle →
      ∃ q, classlist_lookup Parameter.name p0.parameters "Substrate Roughness" = some q ∧
        (model_post_init p0).parameters = { q with protectedTag := true } ::
          p0.parameters.eraseP
            (fun r => pythonLower r.name = pythonLower "Substrate Roughness") := by
    intro p0 h1 h2
    obtain ⟨q0, hq0, ht0⟩ := List.mem_map.mp h1
    have hsome : (classlist_lookup Parameter.name p0.parameters
        "Substrate Roughness").isSome := by
      unfold classlist_lookup
      rw [List.find?_isSome]
      refine ⟨q0, hq0, decide_eq_true ?_⟩
      rw [← pythonLower_pythonTitle q0.name, ht0]
    obtain ⟨q, hq⟩ := Option.isSome_iff_exists.mp hsome
    refine ⟨q, hq, ?_⟩
    unfold model_post_init
    dsimp only
    rw [if_neg (show ¬("Substrate Roughness" ∉
      p0.parameters.map (fun q => pythonTitle q.name)) from fun hc => hc h1)]
    rw [if_pos h2, hq]
    split_ifs <;> rfl
  refine ⟨part1, part2, ?_⟩
  intro p0 h2
  by_cases h1 : "Substrate Roughness" ∈ p0.parameters.map (fun q => pythonTitle q.name)
  · obtain ⟨q, hq, heq⟩ := part2 p0 h1 h2
    refine ⟨{ q with protectedTag := true }, _, heq, rfl, ?_⟩
    have := List.find?_some hq
    simpa using this
  · exact ⟨substrateRoughnessDefault, _, part1 p0 h1, rfl, rfl⟩

/-- Witness for C10 (amended), case two: a graph whose parameters hold an
unprotected entry named `substrate roughness` (lower case) gets it
replaced by a protected copy at index 0. -/
theorem C10_substrate_roughness_bootstrap_witness :
    ("Substrate Roughness" ∈
      ({ parameters := [{ name := "substrate roughness", value := 7 }] } :
        Project).parameters.map (fun q => pythonTitle q.name)) ∧
    ∃ q, classlist_lookup Parameter.name
        ({ parameters := [{ name := "substrate roughness", value := 7 }] } :
          Project).parameters "Substrate Roughness" = some q ∧
      (model_post_init
        { parameters := [{ name := "substrate roughness", value := 7 }] }).parameters =
        { q with protectedTag := true } ::
          ({ parameters := [{ name := "substrate roughness", value := 7 }] } :
            Project).parameters.eraseP
            (fun r => pythonLower r.name = pythonLower "Substrate Roughness") :=
  ⟨by decide, C10_substrate_roughness_bootstrap.2.1
    { parameters := [{ name := "substrate roughness", value := 7 }] }
    (by decide) (by decide)⟩

/-- Counterexample for C10's final clause as stated: when the supplied
parameters already contain a protected `Substrate Roughness` (here at
index 1), `model_post_init` leaves the collection unchanged, so index 0
holds a plain, unprotected parameter. -/
theorem C10_substrate_roughness_bootstrap_counterexample :
    (model_post_init protectedNotFirstProject).parameters =
      [{ name := "A" }, { name := "Substrate Roughness", protectedTag := true }] ∧
    (model_post_init protectedNotFirstProject).parameters.head?.map
      (fun q => (q.name, q.protectedTag)) = some ("A", false) := by
  exact ⟨by decide, by decide⟩

end RAT
